import Mathlib

/-!
Verification of the request-lifecycle and authorization engine of the
`service_center` repository (files `app/rbac.py`, `app/services.py`,
`app/usecases.py`, `app/models.py`).

The Python code is shallowly embedded: ORM entities become structures, the
database session becomes an explicit `Store` value threaded through the
use cases, Python exceptions become an `Except EngineError` result, and the
wall clock (`date.today()`, `datetime.now()`) becomes explicit `today`/`now`
arguments.  An operation that raises returns `.error e` and yields no new
store, mirroring the caller's transaction rollback in `app/main.py`.
Dates and datetimes are modelled as integers (ordinal days / timestamps);
only their ordering is ever used by the engine.
-/

namespace ServiceCenter

/-! Role name constants, from `app/services.py`. -/

def ROLE_MANAGER : String := "Менеджер"

def ROLE_MASTER : String := "Мастер"

def ROLE_SPECIALIST : String := "Специалист"

def ROLE_OPERATOR : String := "Оператор"

def ROLE_CLIENT : String := "Заказчик"

def ROLE_QUALITY_MANAGER : String := "Менеджер по качеству"

/-- Embeds `services.is_master_role`. -/
def is_master_role (role : String) : Bool :=
  role == ROLE_MASTER || role == ROLE_SPECIALIST

/-- True when the role string is one of the six enumerated role names.
`rbac.role_name` returns `""` for a user without a resolvable role; any
string outside the six constants falls through every dispatch branch. -/
def roleResolved (r : String) : Bool :=
  r == ROLE_MANAGER || r == ROLE_OPERATOR || r == ROLE_QUALITY_MANAGER ||
    r == ROLE_MASTER || r == ROLE_SPECIALIST || r == ROLE_CLIENT

/-! Entities, from `app/models.py`.  A `User` value carries the result of
`rbac.role_name(user)` directly as its `role` field. -/

structure RequestStatus where
  id : Nat
  name : String
  is_final : Bool
deriving DecidableEq, Repr

structure User where
  id : Nat
  role : String
deriving DecidableEq, Repr

structure EquipmentModel where
  id : Nat
  equipment_type_id : Nat
  name : String
deriving DecidableEq, Repr

structure IssueType where
  id : Nat
  name : String
deriving DecidableEq, Repr

/-- The ticket.  The ORM keeps `status_id` and the `status` relationship in
sync; the embedding stores the resolved `RequestStatus` record itself, as
`rbac` reads `req.status.is_final` and `usecases` writes
`req.status_id = new_status.id`.  `id` and `client_id` are `Option` because a
freshly constructed `models.RepairRequest()` has them unset until assigned. -/
structure RepairRequest where
  id : Option Nat
  start_date : Int
  equipment_model_id : Nat
  issue_type_id : Nat
  problem_description : String
  status : RequestStatus
  completion_date : Option Int
  due_date : Option Int
  repair_parts : Option String
  master_id : Option Nat
  client_id : Option Nat
deriving DecidableEq, Repr

structure RequestComment where
  id : Nat
  request_id : Nat
  master_id : Nat
  message : String
deriving DecidableEq, Repr

structure HelpRequest where
  id : Nat
  request_id : Nat
  created_by_master_id : Nat
  quality_manager_id : Option Nat
  assigned_master_id : Option Nat
  status : String
  message : String
  resolution_note : Option String
  proposed_due_date : Option Int
  closed_at : Option Int
deriving DecidableEq, Repr

/-- The persistence store (the SQLAlchemy session plus the underlying
tables).  `nextId` models persistence-assigned primary keys for rows added
inside the current unit of work. -/
structure Store where
  statuses : List RequestStatus
  users : List User
  equipmentModels : List EquipmentModel
  issueTypes : List IssueType
  requests : List RepairRequest
  comments : List RequestComment
  helpRequests : List HelpRequest
  nextId : Nat
deriving DecidableEq, Repr

/-! `db.get(Model, id)` lookups. -/

def dbGetStatus (s : Store) (i : Nat) : Option RequestStatus :=
  s.statuses.find? (fun st => st.id == i)

def dbGetUser (s : Store) (i : Nat) : Option User :=
  s.users.find? (fun u => u.id == i)

def dbGetRequest (s : Store) (i : Nat) : Option RepairRequest :=
  s.requests.find? (fun r => r.id == some i)

def dbGetHelp (s : Store) (i : Nat) : Option HelpRequest :=
  s.helpRequests.find? (fun h => h.id == i)

def dbGetIssueType (s : Store) (i : Nat) : Option IssueType :=
  s.issueTypes.find? (fun it => it.id == i)

/-! Authorization predicates, from `app/rbac.py`.  Each takes the actor's
resolved role name inside the `User` value. -/

/-- Embeds `rbac.user_can_create_request`. -/
def user_can_create_request (u : User) : Bool :=
  u.role == ROLE_MANAGER || u.role == ROLE_OPERATOR ||
    u.role == ROLE_QUALITY_MANAGER || u.role == ROLE_CLIENT

/-- Embeds `rbac.user_can_view_request`. -/
def user_can_view_request (u : User) (req : RepairRequest) : Bool :=
  if u.role == ROLE_MANAGER || u.role == ROLE_OPERATOR ||
      u.role == ROLE_QUALITY_MANAGER then
    true
  else if is_master_role u.role then
    req.master_id == some u.id
  else if u.role == ROLE_CLIENT then
    req.client_id == some u.id
  else
    false

/-- Embeds `rbac.user_can_edit_request`. -/
def user_can_edit_request (u : User) (req : RepairRequest) : Bool :=
  if u.role == ROLE_MANAGER || u.role == ROLE_OPERATOR ||
      u.role == ROLE_QUALITY_MANAGER then
    true
  else if is_master_role u.role then
    req.master_id == some u.id
  else if u.role == ROLE_CLIENT then
    req.client_id == some u.id && !req.status.is_final
  else
    false

/-- Embeds `rbac.user_can_delete_request`. -/
def user_can_delete_request (u : User) : Bool :=
  u.role == ROLE_MANAGER || u.role == ROLE_OPERATOR

/-- Embeds `rbac.user_can_add_comment`. -/
def user_can_add_comment (u : User) (req : RepairRequest) : Bool :=
  is_master_role u.role && req.master_id == some u.id

/-- Embeds `rbac.user_can_assign_master`. -/
def user_can_assign_master (u : User) : Bool :=
  u.role == ROLE_MANAGER || u.role == ROLE_OPERATOR ||
    u.role == ROLE_QUALITY_MANAGER

/-- Embeds `rbac.user_can_change_status`. -/
def user_can_change_status (u : User) (old_status new_status : RequestStatus) :
    Bool :=
  if u.role == ROLE_MANAGER || u.role == ROLE_OPERATOR ||
      u.role == ROLE_QUALITY_MANAGER then
    true
  else if is_master_role u.role then
    if old_status.id == new_status.id then
      true
    else if old_status.is_final && !new_status.is_final then
      false
    else
      true
  else if u.role == ROLE_CLIENT then
    old_status.id == new_status.id
  else
    false

/-- Embeds `rbac.user_can_create_help_request`. -/
def user_can_create_help_request (u : User) : Bool :=
  is_master_role u.role

/-- Embeds `rbac.user_can_handle_help_request`. -/
def user_can_handle_help_request (u : User) : Bool :=
  u.role == ROLE_QUALITY_MANAGER || u.role == ROLE_MANAGER

/-! Services used by the use cases, from `app/services.py`. -/

/-- Python truthiness of an optional integer: `None` and `0` are falsy. -/
def truthy (o : Option Nat) : Bool :=
  match o with
  | none => false
  | some n => n != 0

/-- Python `str.strip()` with no arguments: drop leading and trailing
whitespace.  Written with structural list recursion so that the kernel can
evaluate it (`String.trim` in core is not kernel-reducible). -/
def pyStrip (s : String) : String :=
  ⟨((s.data.dropWhile Char.isWhitespace).reverse.dropWhile
    Char.isWhitespace).reverse⟩

/-- Python `str.rstrip()` with no arguments. -/
def pyRStrip (s : String) : String :=
  ⟨(s.data.reverse.dropWhile Char.isWhitespace).reverse⟩

/-- Embeds `services.normalize_issue_type_name`. -/
def normalize_issue_type_name (problem_description : String) : String :=
  let text := pyStrip problem_description
  if text == "" then "Не указано"
  else if text.length ≤ 255 then text
  else pyRStrip (text.take 252) ++ "..."

/-- Embeds `services.get_or_create_equipment_model`; returns the possibly
extended store with the found-or-created row. -/
def get_or_create_equipment_model (s : Store) (equipment_type_id : Nat)
    (model_name : String) : Store × EquipmentModel :=
  let cleaned_name := pyStrip model_name
  match s.equipmentModels.find?
      (fun m => m.equipment_type_id == equipment_type_id &&
        m.name == cleaned_name) with
  | some existing => (s, existing)
  | none =>
    let created : EquipmentModel :=
      { id := s.nextId, equipment_type_id := equipment_type_id,
        name := cleaned_name }
    ({ s with
        equipmentModels := s.equipmentModels ++ [created],
        nextId := s.nextId + 1 }, created)

/-- Embeds `services.get_or_create_issue_type`. -/
def get_or_create_issue_type (s : Store) (problem_description : String) :
    Store × IssueType :=
  let name := normalize_issue_type_name problem_description
  match s.issueTypes.find? (fun it => it.name == name) with
  | some existing => (s, existing)
  | none =>
    let created : IssueType := { id := s.nextId, name := name }
    ({ s with
        issueTypes := s.issueTypes ++ [created],
        nextId := s.nextId + 1 }, created)

/-- The element of least `id` in a list, modelling a query with
`order_by(id.asc()).first()` over uniquely keyed rows. -/
def minById (l : List RequestStatus) : Option RequestStatus :=
  l.foldl
    (fun acc st =>
      match acc with
      | none => some st
      | some b => if st.id < b.id then some st else some b)
    none

/-! The error taxonomy, from `app/usecases.py`.  In Python
`StatusChangeForbiddenError` subclasses `PermissionDeniedError` and all six
subclass `DomainError`; `services.get_new_request_status` instead raises a
bare `RuntimeError`, which is NOT a `DomainError` and is not caught by the
`except usecases.DomainError` handlers in `app/main.py`. -/

inductive DomainError where
  | permissionDenied
  | statusChangeForbidden
  | requestNotFound
  | helpRequestNotFound
  | helpRequestAlreadyOpen
  | businessRuleViolation
deriving DecidableEq, Repr

inductive EngineError where
  | domain (e : DomainError)
  | runtime
deriving DecidableEq, Repr

/-- Embeds `services.get_new_request_status`: prefer the status literally
named "Новая заявка"; otherwise the first (least-id) non-final status;
otherwise raise `RuntimeError`. -/
def get_new_request_status (s : Store) :
    Except EngineError RequestStatus :=
  match s.statuses.find? (fun st => st.name == "Новая заявка") with
  | some status => .ok status
  | none =>
    match minById (s.statuses.filter (fun st => !st.is_final)) with
    | some status => .ok status
    | none => .error .runtime

/-! Use-case layer, from `app/usecases.py`. -/

/-- Embeds `usecases.RequestInput`. -/
structure RequestInput where
  id : Option Nat
  start_date : Int
  equipment_type_id : Nat
  equipment_model_name : String
  issue_type_id : Option Nat
  problem_description : String
  status_id : Option Nat
  completion_date : Option Int
  due_date : Option Int
  repair_parts : Option String
  master_id : Option Nat
  client_id : Option Nat
deriving DecidableEq, Repr

/-- Embeds `usecases.HelpRequestCreateInput`. -/
structure HelpRequestCreateInput where
  request_id : Nat
  message : String
  proposed_due_date : Option Int
deriving DecidableEq, Repr

/-- Embeds `usecases.HelpRequestCloseInput`. -/
structure HelpRequestCloseInput where
  help_id : Nat
  resolution_note : String
  assigned_master_id : Option Nat
  new_due_date : Option Int
deriving DecidableEq, Repr

/-- Embeds `usecases._resolve_equipment_and_issue` (the `if data.issue_type_id`
test is Python truthiness, so an explicit id of `0` also falls back to the
get-or-create-by-description path). -/
def _resolve_equipment_and_issue (s : Store) (data : RequestInput) :
    Store × EquipmentModel × IssueType :=
  let p := get_or_create_equipment_model s data.equipment_type_id
    data.equipment_model_name
  if truthy data.issue_type_id then
    match dbGetIssueType p.1 (data.issue_type_id.getD 0) with
    | some issue_type_obj => (p.1, p.2, issue_type_obj)
    | none =>
      let q := get_or_create_issue_type p.1 data.problem_description
      (q.1, p.2, q.2)
  else
    let q := get_or_create_issue_type p.1 data.problem_description
    (q.1, p.2, q.2)

/-- Embeds `usecases._resolve_new_status_for_create`. -/
def _resolve_new_status_for_create (s : Store) (user : User)
    (data : RequestInput) : Except EngineError RequestStatus :=
  if user.role == ROLE_CLIENT then
    get_new_request_status s
  else
    match data.status_id with
    | none => .error (.domain .businessRuleViolation)
    | some sid =>
      match dbGetStatus s sid with
      | none => .error (.domain .businessRuleViolation)
      | some status_obj => .ok status_obj

/-- Embeds `usecases._resolve_new_status_for_update`. -/
def _resolve_new_status_for_update (s : Store) (user : User)
    (req : RepairRequest) (data : RequestInput) :
    Except EngineError RequestStatus :=
  let old_status := req.status
  if user.role == ROLE_CLIENT then
    .ok old_status
  else
    match data.status_id with
    | none => .ok old_status
    | some sid =>
      if sid == old_status.id then
        .ok old_status
      else
        match dbGetStatus s sid with
        | none => .error (.domain .businessRuleViolation)
        | some new_status =>
          if user_can_change_status user old_status new_status then
            .ok new_status
          else
            .error (.domain .statusChangeForbidden)

/-- Embeds `usecases._apply_completion_date` (`data.completion_date or
date.today()`: a `date` is always truthy, so only `None` falls to today). -/
def _apply_completion_date (req : RepairRequest)
    (new_status : RequestStatus) (data : RequestInput) (today : Int) :
    RepairRequest :=
  if new_status.is_final then
    { req with completion_date := some (data.completion_date.getD today) }
  else
    { req with completion_date := data.completion_date }

/-- Embeds `usecases._apply_due_date`. -/
def _apply_due_date (user : User) (req : RepairRequest)
    (data : RequestInput) : RepairRequest :=
  if user.role == ROLE_MANAGER || user.role == ROLE_OPERATOR ||
      user.role == ROLE_QUALITY_MANAGER then
    { req with due_date := data.due_date }
  else if req.id == none then
    { req with due_date := none }
  else
    req

/-- Embeds `usecases._apply_repair_parts`. -/
def _apply_repair_parts (user : User) (req : RepairRequest)
    (data : RequestInput) : RepairRequest :=
  if user.role == ROLE_MANAGER || user.role == ROLE_OPERATOR ||
      user.role == ROLE_MASTER || user.role == ROLE_SPECIALIST then
    let text := pyStrip (data.repair_parts.getD "")
    { req with repair_parts := if text == "" then none else some text }
  else if req.id == none then
    { req with repair_parts := none }
  else
    req

/-- Embeds `usecases._apply_master` (`data.master_id if data.master_id else
None` is a truthiness test: `0` becomes `None`). -/
def _apply_master (user : User) (req : RepairRequest)
    (data : RequestInput) : RepairRequest :=
  if user_can_assign_master user then
    { req with master_id := if truthy data.master_id then data.master_id
        else none }
  else if req.id == none then
    { req with master_id := none }
  else
    req

/-- Embeds `usecases._apply_client` (`if not data.client_id` is truthiness:
a missing or zero client id raises). -/
def _apply_client (user : User) (req : RepairRequest)
    (data : RequestInput) : Except EngineError RepairRequest :=
  if user.role == ROLE_CLIENT then
    .ok { req with client_id := some user.id }
  else if user.role == ROLE_MANAGER || user.role == ROLE_OPERATOR then
    if !truthy data.client_id then
      .error (.domain .businessRuleViolation)
    else
      .ok { req with client_id := data.client_id }
  else if req.id == none then
    .error (.domain .businessRuleViolation)
  else
    .ok req

/-- A freshly constructed `models.RepairRequest()`: every column unset.  The
non-optional fields hold placeholder values; `save_request` overwrites each
of them before the record is read or stored. -/
def blankRequest : RepairRequest :=
  { id := none, start_date := 0, equipment_model_id := 0, issue_type_id := 0,
    problem_description := "", status := { id := 0, name := "", is_final := false },
    completion_date := none, due_date := none, repair_parts := none,
    master_id := none, client_id := none }

/-- Models `db.add(req)` followed by commit: an entity with a primary key
replaces its row, a fresh entity is appended with a persistence-assigned id. -/
def dbAddRequest (s : Store) (req : RepairRequest) :
    Store × RepairRequest :=
  match req.id with
  | some _ =>
    ({ s with
        requests := s.requests.map (fun r => if r.id == req.id then req else r) },
      req)
  | none =>
    let saved := { req with id := some s.nextId }
    ({ s with
        requests := s.requests ++ [saved],
        nextId := s.nextId + 1 }, saved)

/-- Models `db.add(help_req)` for an already-persisted help request. -/
def dbUpdateHelp (s : Store) (h : HelpRequest) : Store :=
  { s with
      helpRequests := s.helpRequests.map (fun x => if x.id == h.id then h else x) }

/-- The field-assignment block of `usecases.save_request` (lines setting
`start_date` .. `client`), shared by the create and update paths. -/
def finishSave (s : Store) (user : User) (data : RequestInput) (today : Int)
    (req0 : RepairRequest) (new_status : RequestStatus)
    (equipment_model : EquipmentModel) (issue_type_obj : IssueType) :
    Except EngineError (Store × RepairRequest) :=
  let req1 := { req0 with
    start_date := data.start_date,
    equipment_model_id := equipment_model.id,
    issue_type_id := issue_type_obj.id,
    problem_description := data.problem_description,
    status := new_status }
  let req2 := _apply_completion_date req1 new_status data today
  let req3 := _apply_due_date user req2 data
  let req4 := _apply_repair_parts user req3 data
  let req5 := _apply_master user req4 data
  match _apply_client user req5 data with
  | .error e => .error e
  | .ok req6 => .ok (dbAddRequest s req6)

/-- Embeds `usecases.save_request`. -/
def save_request (s : Store) (user : User) (data : RequestInput)
    (today : Int) : Except EngineError (Store × RepairRequest) :=
  let r := _resolve_equipment_and_issue s data
  match data.id with
  | some rid =>
    match dbGetRequest r.1 rid with
    | none => .error (.domain .requestNotFound)
    | some req =>
      if !user_can_edit_request user req then
        .error (.domain .permissionDenied)
      else
        match _resolve_new_status_for_update r.1 user req data with
        | .error e => .error e
        | .ok new_status =>
          finishSave r.1 user data today req new_status r.2.1 r.2.2
  | none =>
    if !user_can_create_request user then
      .error (.domain .permissionDenied)
    else
      match _resolve_new_status_for_create r.1 user data with
      | .error e => .error e
      | .ok new_status =>
        finishSave r.1 user data today blankRequest new_status r.2.1 r.2.2

/-- Embeds `usecases.delete_request`; `db.delete(req)` cascades to the
ticket's comments and help requests (`cascade="all, delete-orphan"`). -/
def delete_request (s : Store) (user : User) (request_id : Nat) :
    Except EngineError Store :=
  match dbGetRequest s request_id with
  | none => .error (.domain .requestNotFound)
  | some _ =>
    if !user_can_delete_request user then
      .error (.domain .permissionDenied)
    else
      .ok { s with
        requests := s.requests.filter (fun r => !(r.id == some request_id)),
        comments := s.comments.filter (fun c => !(c.request_id == request_id)),
        helpRequests :=
          s.helpRequests.filter (fun h => !(h.request_id == request_id)) }

/-- Embeds `usecases.add_comment`. -/
def add_comment (s : Store) (user : User) (request_id : Nat)
    (message : String) : Except EngineError (Store × RequestComment) :=
  match dbGetRequest s request_id with
  | none => .error (.domain .requestNotFound)
  | some req =>
    if !user_can_add_comment user req then
      .error (.domain .permissionDenied)
    else
      let msg_clean := pyStrip message
      if msg_clean == "" then
        .error (.domain .businessRuleViolation)
      else
        let comment : RequestComment :=
          { id := s.nextId, request_id := request_id, master_id := user.id,
            message := msg_clean }
        .ok ({ s with
            comments := s.comments ++ [comment],
            nextId := s.nextId + 1 }, comment)

/-- Embeds `usecases.create_help_request`. -/
def create_help_request (s : Store) (user : User)
    (data : HelpRequestCreateInput) :
    Except EngineError (Store × HelpRequest) :=
  if !user_can_create_help_request user then
    .error (.domain .permissionDenied)
  else
    match dbGetRequest s data.request_id with
    | none => .error (.domain .requestNotFound)
    | some req =>
      if !(req.master_id == some user.id) then
        .error (.domain .permissionDenied)
      else
        match s.helpRequests.find?
            (fun h => h.request_id == data.request_id &&
              h.status == "open") with
        | some _ => .error (.domain .helpRequestAlreadyOpen)
        | none =>
          let msg_clean := pyStrip data.message
          if msg_clean == "" then
            .error (.domain .businessRuleViolation)
          else
            let help_req : HelpRequest :=
              { id := s.nextId, request_id := data.request_id,
                created_by_master_id := user.id, quality_manager_id := none,
                assigned_master_id := none, status := "open",
                message := msg_clean, resolution_note := none,
                proposed_due_date := data.proposed_due_date,
                closed_at := none }
            .ok ({ s with
                helpRequests := s.helpRequests ++ [help_req],
                nextId := s.nextId + 1 }, help_req)

/-- The mutation block at the end of `usecases.close_help_request`, after all
checks have passed; `req` and `help_req` already carry the reassigned master
when `assigned_master_id` was given. -/
def finishClose (s : Store) (user : User) (data : HelpRequestCloseInput)
    (now : Int) (req : RepairRequest) (help_req : HelpRequest) :
    Store × HelpRequest :=
  let req2 := match data.new_due_date with
    | some d => { req with due_date := some d }
    | none => req
  let note_clean := pyStrip data.resolution_note
  let help2 := { help_req with
    resolution_note := if note_clean == "" then none else some note_clean,
    quality_manager_id := some user.id,
    status := "closed",
    closed_at := some now }
  ((dbAddRequest (dbUpdateHelp s help2) req2).1, help2)

/-- Embeds `usecases.close_help_request`. -/
def close_help_request (s : Store) (user : User)
    (data : HelpRequestCloseInput) (now : Int) :
    Except EngineError (Store × HelpRequest) :=
  if !user_can_handle_help_request user then
    .error (.domain .permissionDenied)
  else
    match dbGetHelp s data.help_id with
    | none => .error (.domain .helpRequestNotFound)
    | some help_req =>
      if !(help_req.status == "open") then
        .error (.domain .businessRuleViolation)
      else
        match dbGetRequest s help_req.request_id with
        | none => .error (.domain .requestNotFound)
        | some req =>
          if (match data.new_due_date with
              | some d => decide (d < req.start_date)
              | none => false) then
            .error (.domain .businessRuleViolation)
          else
            match data.assigned_master_id with
            | some mid =>
              match dbGetUser s mid with
              | none => .error (.domain .businessRuleViolation)
              | some master_user =>
                if !is_master_role master_user.role then
                  .error (.domain .businessRuleViolation)
                else
                  .ok (finishClose s user data now
                    { req with master_id := some master_user.id }
                    { help_req with assigned_master_id := some master_user.id })
            | none =>
              .ok (finishClose s user data now req help_req)

/-! The single-open-help-request invariant of the spec. -/

/-- Number of open help requests recorded for ticket `rid`. -/
def openCount (s : Store) (rid : Nat) : Nat :=
  s.helpRequests.countP (fun h => h.request_id == rid && h.status == "open")

/-- The spec invariant: at most one HelpRequest with state `open` per
RepairRequest. -/
def atMostOneOpen (s : Store) : Prop :=
  ∀ rid, openCount s rid ≤ 1

/-- The spec invariant: `completion_date` is set whenever the current status
is final. -/
def completionInv (s : Store) : Prop :=
  ∀ r ∈ s.requests, r.status.is_final = true → r.completion_date.isSome = true

/-! General list lemmas used by the invariant proofs. -/

theorem countP_map_le {α : Type} (f : α → α) (p : α → Bool)
    (hf : ∀ x, p (f x) = true → p x = true) (l : List α) :
    (l.map f).countP p ≤ l.countP p := by
  induction l with
  | nil => simp
  | cons a t ih =>
    simp only [List.map_cons, List.countP_cons]
    have hle : (if p (f a) = true then 1 else 0) ≤ (if p a = true then 1 else 0) := by
      by_cases hb : p (f a) = true
      · simp [hb, hf a hb]
      · simp [hb]
    exact Nat.add_le_add ih hle

theorem eq_of_countP_le_one {α : Type} {p : α → Bool} :
    ∀ {l : List α}, l.countP p ≤ 1 →
      ∀ x ∈ l, p x = true → ∀ y ∈ l, p y = true → x = y := by
  intro l
  induction l with
  | nil =>
    intro _ x hx
    simp at hx
  | cons a t ih =>
    intro hc x hx hpx y hy hpy
    rw [List.countP_cons] at hc
    by_cases hpa : p a = true
    · rw [if_pos hpa] at hc
      have ht0 : t.countP p = 0 := by omega
      have hall := List.countP_eq_zero.mp ht0
      rcases List.mem_cons.mp hx with rfl | hx'
      · rcases List.mem_cons.mp hy with rfl | hy'
        · rfl
        · exact absurd hpy (hall y hy')
      · exact absurd hpx (hall x hx')
    · rw [if_neg hpa] at hc
      rcases List.mem_cons.mp hx with rfl | hx'
      · exact absurd hpx hpa
      · rcases List.mem_cons.mp hy with rfl | hy'
        · exact absurd hpy hpa
        · have hc' : t.countP p ≤ 1 := by omega
          exact ih hc' x hx' hpx y hy' hpy

theorem find?_map_replace {α : Type} (q : α → Bool) (y : α)
    (hy : q y = true) :
    ∀ l : List α,
      (l.map (fun x => if q x then y else x)).find? q =
        (l.find? q).map (fun _ => y) := by
  intro l
  induction l with
  | nil => rfl
  | cons a t ih =>
    by_cases ha : q a = true
    · simp [List.find?_cons_of_pos, ha, hy]
    · have hhead : (if q a then y else a) = a := by simp [ha]
      simp only [List.map_cons, hhead]
      rw [List.find?_cons_of_neg _ ha, List.find?_cons_of_neg _ ha, ih]

theorem countP_filter_le {α : Type} (p q : α → Bool) (l : List α) :
    (l.filter q).countP p ≤ l.countP p := by
  induction l with
  | nil => simp
  | cons a t ih =>
    by_cases hq : q a = true
    · rw [List.filter_cons_of_pos hq, List.countP_cons, List.countP_cons]
      exact Nat.add_le_add ih (Nat.le_refl _)
    · rw [List.filter_cons_of_neg hq, List.countP_cons]
      exact Nat.le_trans ih (Nat.le_add_right _ _)

/-! Frame lemmas: which store components each persistence helper leaves
untouched. -/

/-- Two stores that agree on every table the lifecycle rules read. -/
def sameCore (s1 s2 : Store) : Prop :=
  s1.statuses = s2.statuses ∧ s1.users = s2.users ∧
    s1.requests = s2.requests ∧ s1.comments = s2.comments ∧
    s1.helpRequests = s2.helpRequests

theorem sameCore_trans {a b c : Store} (h1 : sameCore a b)
    (h2 : sameCore b c) : sameCore a c := by
  obtain ⟨x1, x2, x3, x4, x5⟩ := h1
  obtain ⟨y1, y2, y3, y4, y5⟩ := h2
  exact ⟨x1.trans y1, x2.trans y2, x3.trans y3, x4.trans y4, x5.trans y5⟩

theorem get_or_create_equipment_model_core (s : Store) (tid : Nat)
    (mn : String) :
    sameCore (get_or_create_equipment_model s tid mn).1 s := by
  unfold get_or_create_equipment_model sameCore
  cases hfind : s.equipmentModels.find?
      (fun m => m.equipment_type_id == tid && m.name == pyStrip mn) <;>
    simp [hfind]

theorem get_or_create_issue_type_core (s : Store) (d : String) :
    sameCore (get_or_create_issue_type s d).1 s := by
  unfold get_or_create_issue_type sameCore
  cases hfind : s.issueTypes.find?
      (fun it => it.name == normalize_issue_type_name d) <;>
    simp [hfind]

theorem resolve_ei_fields (s : Store) (data : RequestInput) :
    sameCore (_resolve_equipment_and_issue s data).1 s := by
  unfold _resolve_equipment_and_issue
  have hem := get_or_create_equipment_model_core s data.equipment_type_id
    data.equipment_model_name
  generalize hp : get_or_create_equipment_model s data.equipment_type_id
    data.equipment_model_name = p at hem
  obtain ⟨s1, em⟩ := p
  simp only [] at hem ⊢
  split
  · split
    · exact hem
    · exact sameCore_trans
        (get_or_create_issue_type_core s1 data.problem_description) hem
  · exact sameCore_trans
      (get_or_create_issue_type_core s1 data.problem_description) hem

theorem dbAddRequest_frame (s : Store) (req : RepairRequest) :
    (dbAddRequest s req).1.statuses = s.statuses ∧
    (dbAddRequest s req).1.users = s.users ∧
    (dbAddRequest s req).1.comments = s.comments ∧
    (dbAddRequest s req).1.helpRequests = s.helpRequests := by
  unfold dbAddRequest
  split
  all_goals simp

theorem dbAddRequest_mem (s : Store) (req : RepairRequest) :
    ∀ x ∈ (dbAddRequest s req).1.requests,
      x ∈ s.requests ∨ x = (dbAddRequest s req).2 := by
  unfold dbAddRequest
  split
  · intro x hx
    simp only [List.mem_map] at hx
    rcases hx with ⟨y, hy, hxy⟩
    by_cases hb : (y.id == req.id) = true
    · right
      rw [← hxy]
      simp [hb]
    · left
      rw [← hxy]
      simpa [hb] using hy
  · intro x hx
    simp only [List.mem_append, List.mem_singleton] at hx
    rcases hx with hx | hx
    · exact Or.inl hx
    · exact Or.inr hx

theorem dbAddRequest_snd_of_some (s : Store) (req : RepairRequest)
    (h : req.id.isSome = true) : (dbAddRequest s req).2 = req := by
  unfold dbAddRequest
  split
  · rfl
  · simp_all

theorem dbUpdateHelp_frame (s : Store) (h : HelpRequest) :
    (dbUpdateHelp s h).statuses = s.statuses ∧
    (dbUpdateHelp s h).users = s.users ∧
    (dbUpdateHelp s h).requests = s.requests ∧
    (dbUpdateHelp s h).comments = s.comments := by
  unfold dbUpdateHelp
  simp

/-! Frame lemmas for the per-field gates: which ticket fields each gate
leaves untouched. -/

theorem apply_completion_date_frame (req : RepairRequest)
    (ns : RequestStatus) (data : RequestInput) (today : Int) :
    (_apply_completion_date req ns data today).status = req.status ∧
    (_apply_completion_date req ns data today).client_id = req.client_id ∧
    (_apply_completion_date req ns data today).id = req.id := by
  unfold _apply_completion_date
  split <;> exact ⟨rfl, rfl, rfl⟩

theorem apply_due_date_frame (u : User) (req : RepairRequest)
    (data : RequestInput) :
    (_apply_due_date u req data).status = req.status ∧
    (_apply_due_date u req data).completion_date = req.completion_date ∧
    (_apply_due_date u req data).client_id = req.client_id ∧
    (_apply_due_date u req data).id = req.id := by
  unfold _apply_due_date
  split
  · exact ⟨rfl, rfl, rfl, rfl⟩
  · split <;> exact ⟨rfl, rfl, rfl, rfl⟩

theorem apply_repair_parts_frame (u : User) (req : RepairRequest)
    (data : RequestInput) :
    (_apply_repair_parts u req data).status = req.status ∧
    (_apply_repair_parts u req data).completion_date = req.completion_date ∧
    (_apply_repair_parts u req data).client_id = req.client_id ∧
    (_apply_repair_parts u req data).id = req.id := by
  unfold _apply_repair_parts
  split
  · exact ⟨rfl, rfl, rfl, rfl⟩
  · split <;> exact ⟨rfl, rfl, rfl, rfl⟩

theorem apply_master_frame (u : User) (req : RepairRequest)
    (data : RequestInput) :
    (_apply_master u req data).status = req.status ∧
    (_apply_master u req data).completion_date = req.completion_date ∧
    (_apply_master u req data).client_id = req.client_id ∧
    (_apply_master u req data).id = req.id := by
  unfold _apply_master
  split
  · exact ⟨rfl, rfl, rfl, rfl⟩
  · split <;> exact ⟨rfl, rfl, rfl, rfl⟩

theorem apply_client_ok_frame {u : User} {req r : RepairRequest}
    {data : RequestInput} (h : _apply_client u req data = .ok r) :
    r.status = req.status ∧ r.completion_date = req.completion_date ∧
    r.id = req.id := by
  unfold _apply_client at h
  split at h
  · cases h
    exact ⟨rfl, rfl, rfl⟩
  · split at h
    · split at h
      · cases h
      · cases h
        exact ⟨rfl, rfl, rfl⟩
    · split at h
      · cases h
      · cases h
        exact ⟨rfl, rfl, rfl⟩

theorem apply_client_ok_cases {u : User} {req r : RepairRequest}
    {data : RequestInput} (h : _apply_client u req data = .ok r) :
    (u.role = ROLE_CLIENT ∧ r.client_id = some u.id) ∨
    ((u.role = ROLE_MANAGER ∨ u.role = ROLE_OPERATOR) ∧
      truthy data.client_id = true ∧ r.client_id = data.client_id) ∨
    (¬u.role = ROLE_CLIENT ∧ ¬u.role = ROLE_MANAGER ∧
      ¬u.role = ROLE_OPERATOR ∧ ¬req.id = none ∧ r = req) := by
  unfold _apply_client at h
  split at h
  next hcl =>
    cases h
    exact Or.inl ⟨by simpa using hcl, rfl⟩
  next hncl =>
    split at h
    next hmo =>
      split at h
      next => cases h
      next ht =>
        cases h
        have hmo' : u.role = ROLE_MANAGER ∨ u.role = ROLE_OPERATOR := by
          simpa using hmo
        exact Or.inr (Or.inl ⟨hmo', by simpa using ht, rfl⟩)
    next hnmo =>
      split at h
      next => cases h
      next hreqid =>
        cases h
        have hb : ¬u.role = ROLE_MANAGER ∧ ¬u.role = ROLE_OPERATOR := by
          simpa using hnmo
        exact Or.inr (Or.inr ⟨by simpa using hncl, hb.1, hb.2,
          by simpa using hreqid, rfl⟩)

/-! Inversion lemmas: what must have held when a use case returned `.ok`. -/

theorem finishSave_ok_inv {s : Store} {u : User} {data : RequestInput}
    {today : Int} {req0 : RepairRequest} {ns : RequestStatus}
    {em : EquipmentModel} {it : IssueType} {s2 : Store} {r : RepairRequest}
    (h : finishSave s u data today req0 ns em it = .ok (s2, r)) :
    ∃ req6,
      _apply_client u
        (_apply_master u
          (_apply_repair_parts u
            (_apply_due_date u
              (_apply_completion_date
                { req0 with
                  start_date := data.start_date,
                  equipment_model_id := em.id,
                  issue_type_id := it.id,
                  problem_description := data.problem_description,
                  status := ns } ns data today) data) data) data) data =
        .ok req6 ∧
      s2 = (dbAddRequest s req6).1 ∧ r = (dbAddRequest s req6).2 := by
  unfold finishSave at h
  dsimp only [] at h
  split at h
  · cases h
  next req6 heq =>
    injection h with h'
    exact ⟨req6, heq, (congrArg Prod.fst h').symm, (congrArg Prod.snd h').symm⟩

theorem save_ok_inv {s : Store} {u : User} {data : RequestInput}
    {today : Int} {s2 : Store} {r : RepairRequest}
    (h : save_request s u data today = .ok (s2, r)) :
    (data.id = none ∧ user_can_create_request u = true ∧
      ∃ ns, _resolve_new_status_for_create
          (_resolve_equipment_and_issue s data).1 u data = .ok ns ∧
        finishSave (_resolve_equipment_and_issue s data).1 u data today
          blankRequest ns (_resolve_equipment_and_issue s data).2.1
          (_resolve_equipment_and_issue s data).2.2 = .ok (s2, r)) ∨
    (∃ rid req0, data.id = some rid ∧
      dbGetRequest (_resolve_equipment_and_issue s data).1 rid = some req0 ∧
      user_can_edit_request u req0 = true ∧
      ∃ ns, _resolve_new_status_for_update
          (_resolve_equipment_and_issue s data).1 u req0 data = .ok ns ∧
        finishSave (_resolve_equipment_and_issue s data).1 u data today
          req0 ns (_resolve_equipment_and_issue s data).2.1
          (_resolve_equipment_and_issue s data).2.2 = .ok (s2, r)) := by
  unfold save_request at h
  dsimp only [] at h
  split at h
  next rid hid =>
    split at h
    · cases h
    next req0 hreq =>
      split at h
      · cases h
      next hedit =>
        split at h
        · cases h
        next ns hns =>
          refine Or.inr ⟨rid, req0, hid, hreq, ?_, ns, hns, h⟩
          simpa using hedit
  next hid =>
    split at h
    · cases h
    next hcreate =>
      split at h
      · cases h
      next ns hns =>
        refine Or.inl ⟨hid, by simpa using hcreate, ns, hns, h⟩

theorem createHelp_ok_inv {s : Store} {u : User}
    {cin : HelpRequestCreateInput} {s2 : Store} {hr : HelpRequest}
    (h : create_help_request s u cin = .ok (s2, hr)) :
    user_can_create_help_request u = true ∧
    (∃ req, dbGetRequest s cin.request_id = some req ∧
      req.master_id = some u.id) ∧
    s.helpRequests.find?
      (fun x => x.request_id == cin.request_id && x.status == "open") =
        none ∧
    ¬pyStrip cin.message = "" ∧
    hr = {
      id := s.nextId, request_id := cin.request_id,
      created_by_master_id := u.id, quality_manager_id := none,
      assigned_master_id := none, status := "open",
      message := pyStrip cin.message, resolution_note := none,
      proposed_due_date := cin.proposed_due_date, closed_at := none } ∧
    s2 = { s with
      helpRequests := s.helpRequests ++ [hr],
      nextId := s.nextId + 1 } := by
  unfold create_help_request at h
  dsimp only [] at h
  split at h
  · cases h
  next hcan =>
    split at h
    · cases h
    next req hreq =>
      split at h
      · cases h
      next hmaster =>
        split at h
        · cases h
        next hopen =>
          split at h
          · cases h
          next hmsg =>
            have hhr : hr = {
                id := s.nextId, request_id := cin.request_id,
                created_by_master_id := u.id, quality_manager_id := none,
                assigned_master_id := none, status := "open",
                message := pyStrip cin.message, resolution_note := none,
                proposed_due_date := cin.proposed_due_date,
                closed_at := none } := by
              cases h
              rfl
            refine ⟨by simpa using hcan,
              ⟨req, hreq, by simpa using hmaster⟩, hopen,
              by simpa using hmsg, hhr, ?_⟩
            cases h
            rw [hhr]

theorem close_ok_inv {s : Store} {u : User} {data : HelpRequestCloseInput}
    {now : Int} {s2 : Store} {h2 : HelpRequest}
    (h : close_help_request s u data now = .ok (s2, h2)) :
    ∃ h0 req0,
      user_can_handle_help_request u = true ∧
      dbGetHelp s data.help_id = some h0 ∧
      h0.status = "open" ∧
      dbGetRequest s h0.request_id = some req0 ∧
      (∀ d, data.new_due_date = some d → ¬d < req0.start_date) ∧
      ((data.assigned_master_id = none ∧
          (s2, h2) = finishClose s u data now req0 h0) ∨
        (∃ mid mu, data.assigned_master_id = some mid ∧
          dbGetUser s mid = some mu ∧ is_master_role mu.role = true ∧
          (s2, h2) = finishClose s u data now
            { req0 with master_id := some mu.id }
            { h0 with assigned_master_id := some mu.id })) := by
  unfold close_help_request at h
  split at h
  · cases h
  next hcan =>
    split at h
    · cases h
    next h0 hh0 =>
      split at h
      · cases h
      next hopen =>
        split at h
        · cases h
        next req0 hreq0 =>
          split at h
          · cases h
          next hdue =>
            have hdue' : ∀ d, data.new_due_date = some d →
                ¬d < req0.start_date := by
              intro d hd
              rw [hd] at hdue
              simpa using hdue
            split at h
            next mid hmid =>
              split at h
              · cases h
              next mu hmu =>
                split at h
                · cases h
                next hrole =>
                  refine ⟨h0, req0, by simpa using hcan, hh0,
                    by simpa using hopen, hreq0, hdue',
                    Or.inr ⟨mid, mu, hmid, hmu, by simpa using hrole, ?_⟩⟩
                  cases h
                  rfl
            next hnone =>
              refine ⟨h0, req0, by simpa using hcan, hh0,
                by simpa using hopen, hreq0, hdue', Or.inl ⟨hnone, ?_⟩⟩
              cases h
              rfl

/-! Claim theorems. -/

/-- C2: the status transition policy.  Manager, Operator and QualityManager
actors are always permitted; a master-class actor is permitted iff the
statuses coincide, or the old status is non-final, or both are final, and is
forbidden exactly when the old status is final and the new one is not; a
Client actor is permitted only for the no-op; an actor with no resolvable
role is always rejected.  The hypothesis states that status rows are keyed
by their id (two statuses with one id carry one finality flag), which holds
of the uniquely-keyed `request_status` table. -/
theorem c2_status_transition_policy (u : User)
    (old_s new_s : RequestStatus)
    (hwf : old_s.id = new_s.id → old_s.is_final = new_s.is_final) :
    ((u.role = ROLE_MANAGER ∨ u.role = ROLE_OPERATOR ∨
        u.role = ROLE_QUALITY_MANAGER) →
      user_can_change_status u old_s new_s = true) ∧
    (is_master_role u.role = true →
      (user_can_change_status u old_s new_s = true ↔
        (old_s.id = new_s.id ∨ old_s.is_final = false ∨
          (old_s.is_final = true ∧ new_s.is_final = true))) ∧
      (user_can_change_status u old_s new_s = false ↔
        (old_s.is_final = true ∧ new_s.is_final = false))) ∧
    (u.role = ROLE_CLIENT →
      (user_can_change_status u old_s new_s = true ↔
        old_s.id = new_s.id)) ∧
    (roleResolved u.role = false →
      user_can_change_status u old_s new_s = false) := by
  obtain ⟨uid, urole⟩ := u
  obtain ⟨oid, onm, ofin⟩ := old_s
  obtain ⟨nid, nnm, nfin⟩ := new_s
  simp only [] at hwf ⊢
  refine ⟨?_, ?_, ?_, ?_⟩
  · rintro (h | h | h) <;> (subst h; rfl)
  · intro hm
    have hm' : urole = ROLE_MASTER ∨ urole = ROLE_SPECIALIST := by
      simpa [is_master_role] using hm
    have hred : ∀ r, r = ROLE_MASTER ∨ r = ROLE_SPECIALIST →
        user_can_change_status ⟨uid, r⟩ ⟨oid, onm, ofin⟩ ⟨nid, nnm, nfin⟩ =
          (if (oid == nid) = true then true
            else if (ofin && !nfin) = true then false else true) := by
      rintro r (rfl | rfl) <;> rfl
    rw [hred urole hm']
    by_cases hid : oid = nid
    · subst hid
      have := hwf rfl
      subst this
      cases ofin <;> simp
    · cases ofin <;> cases nfin <;> simp [hid]
  · intro h
    subst h
    show (oid == nid) = true ↔ oid = nid
    exact beq_iff_eq
  · intro h
    have hb : ((((¬urole = ROLE_MANAGER ∧ ¬urole = ROLE_OPERATOR) ∧
        ¬urole = ROLE_QUALITY_MANAGER) ∧ ¬urole = ROLE_MASTER) ∧
        ¬urole = ROLE_SPECIALIST) ∧ ¬urole = ROLE_CLIENT := by
      simpa [roleResolved, not_or] using h
    obtain ⟨⟨⟨⟨⟨h1, h2⟩, h3⟩, h4⟩, h5⟩, h6⟩ := hb
    simp [user_can_change_status, is_master_role, h1, h2, h3, h4, h5, h6]

/-- Witness for C2: instantiated with a master-class actor and a final old
status, a non-final distinct new status: the transition is forbidden. -/
theorem c2_witness :
    user_can_change_status ⟨7, "Мастер"⟩ ⟨1, "Завершена", true⟩
      ⟨2, "В работе", false⟩ = false :=
  ((c2_status_transition_policy ⟨7, "Мастер"⟩ ⟨1, "Завершена", true⟩
      ⟨2, "В работе", false⟩ (by decide)).2.1 (by decide)).2.mpr
    (by decide)

/-- C3: view/edit authorization.  Manager, Operator and QualityManager view
and edit any ticket; a master-class actor views/edits exactly their assigned
tickets; a Client views exactly their own tickets and edits exactly their
own non-final tickets. -/
theorem c3_view_edit_authorization (u : User) (req : RepairRequest) :
    ((u.role = ROLE_MANAGER ∨ u.role = ROLE_OPERATOR ∨
        u.role = ROLE_QUALITY_MANAGER) →
      user_can_view_request u req = true ∧
      user_can_edit_request u req = true) ∧
    (is_master_role u.role = true →
      (user_can_view_request u req = true ↔ req.master_id = some u.id) ∧
      (user_can_edit_request u req = true ↔ req.master_id = some u.id)) ∧
    (u.role = ROLE_CLIENT →
      (user_can_view_request u req = true ↔ req.client_id = some u.id) ∧
      (user_can_edit_request u req = true ↔
        (req.client_id = some u.id ∧ req.status.is_final = false))) := by
  obtain ⟨uid, urole⟩ := u
  refine ⟨?_, ?_, ?_⟩
  · rintro (h | h | h) <;> (subst h; exact ⟨rfl, rfl⟩)
  · intro hm
    have hm' : urole = ROLE_MASTER ∨ urole = ROLE_SPECIALIST := by
      simpa [is_master_role] using hm
    rcases hm' with rfl | rfl <;>
      refine ⟨?_, ?_⟩ <;>
      · show (req.master_id == some uid) = true ↔ _
        simp
  · rintro rfl
    constructor
    · show (req.client_id == some uid) = true ↔ _
      simp
    · show (req.client_id == some uid && !req.status.is_final) = true ↔ _
      cases hf : req.status.is_final <;> simp [hf]

/-- Witness for C3: a client may view but not edit their own ticket once its
status is final. -/
theorem c3_witness :
    user_can_view_request ⟨7, "Заказчик"⟩
      { id := some 10, start_date := 0, equipment_model_id := 1,
        issue_type_id := 1, problem_description := "x",
        status := ⟨2, "Завершена", true⟩, completion_date := some 3,
        due_date := none, repair_parts := none, master_id := some 2,
        client_id := some 7 } = true ∧
    ¬user_can_edit_request ⟨7, "Заказчик"⟩
      { id := some 10, start_date := 0, equipment_model_id := 1,
        issue_type_id := 1, problem_description := "x",
        status := ⟨2, "Завершена", true⟩, completion_date := some 3,
        due_date := none, repair_parts := none, master_id := some 2,
        client_id := some 7 } = true := by
  have hc := (c3_view_edit_authorization ⟨7, "Заказчик"⟩
    { id := some 10, start_date := 0, equipment_model_id := 1,
      issue_type_id := 1, problem_description := "x",
      status := ⟨2, "Завершена", true⟩, completion_date := some 3,
      due_date := none, repair_parts := none, master_id := some 2,
      client_id := some 7 }).2.2 rfl
  exact ⟨hc.1.mpr (by decide), fun hedit => by
    have := hc.2.mp hedit
    simp at this⟩

/-! Auxiliary consequences of the inversion lemmas, shared by the invariant
claims. -/

theorem save_ok_same_help {s : Store} {u : User} {data : RequestInput}
    {today : Int} {s2 : Store} {r : RepairRequest}
    (h : save_request s u data today = .ok (s2, r)) :
    s2.helpRequests = s.helpRequests := by
  rcases save_ok_inv h with ⟨_, _, ns, _, hfin⟩ | ⟨rid, req0, _, _, _, ns, _, hfin⟩ <;>
  · rcases finishSave_ok_inv hfin with ⟨req6, _, hs2, _⟩
    rw [hs2, (dbAddRequest_frame _ _).2.2.2]
    exact (resolve_ei_fields s data).2.2.2.2

theorem add_comment_ok_same_help {s : Store} {u : User} {rid : Nat}
    {msg : String} {s2 : Store} {c : RequestComment}
    (h : add_comment s u rid msg = .ok (s2, c)) :
    s2.helpRequests = s.helpRequests := by
  unfold add_comment at h
  dsimp only [] at h
  split at h
  · cases h
  · split at h
    · cases h
    · split at h
      · cases h
      · cases h
        rfl

theorem delete_ok_help {s : Store} {u : User} {rid : Nat} {s2 : Store}
    (h : delete_request s u rid = .ok s2) :
    s2.helpRequests =
      s.helpRequests.filter (fun x => !(x.request_id == rid)) := by
  unfold delete_request at h
  split at h
  · cases h
  · split at h
    · cases h
    · cases h
      rfl

theorem close_ok_help_shape {s : Store} {u : User}
    {data : HelpRequestCloseInput} {now : Int} {s2 : Store}
    {h2 : HelpRequest}
    (h : close_help_request s u data now = .ok (s2, h2)) :
    ∃ h0, dbGetHelp s data.help_id = some h0 ∧ h0.status = "open" ∧
      h2.id = h0.id ∧ h2.request_id = h0.request_id ∧
      h2.status = "closed" ∧
      s2.helpRequests = s.helpRequests.map
        (fun x => if (x.id == h2.id) = true then h2 else x) := by
  rcases close_ok_inv h with ⟨h0, req0, _, hh0, hopen, _, _, hbr⟩
  refine ⟨h0, hh0, hopen, ?_⟩
  rcases hbr with ⟨_, hfc⟩ | ⟨mid, mu, _, _, _, hfc⟩ <;>
  · have hsnd := congrArg Prod.snd hfc
    have hfst := congrArg Prod.fst hfc
    simp only [] at hsnd hfst
    subst hsnd
    refine ⟨rfl, rfl, rfl, ?_⟩
    rw [hfst]
    show (dbAddRequest (dbUpdateHelp s _) _).1.helpRequests = _
    rw [(dbAddRequest_frame _ _).2.2.2]
    rfl

/-- C1: escalation exclusivity.  Opening raises `HelpRequestAlreadyOpen`
whenever an open help request already exists for the ticket; after a close,
a new one can be opened for the same ticket; and each engine operation
(save, delete, add-comment, open-escalation, close-escalation) preserves the
at-most-one-open-per-ticket invariant. -/
theorem c1_open_escalation_exclusive :
    (∀ (s : Store) (u : User) (cin : HelpRequestCreateInput)
        (req : RepairRequest),
      user_can_create_help_request u = true →
      dbGetRequest s cin.request_id = some req →
      req.master_id = some u.id →
      (∃ h0 ∈ s.helpRequests,
        (h0.request_id == cin.request_id && h0.status == "open") = true) →
      create_help_request s u cin =
        .error (.domain .helpRequestAlreadyOpen)) ∧
    (∀ (s : Store) (u2 : User) (cdata : HelpRequestCloseInput) (now : Int)
        (s2 : Store) (h2 : HelpRequest) (u : User)
        (cin : HelpRequestCreateInput) (req2 : RepairRequest),
      atMostOneOpen s →
      close_help_request s u2 cdata now = .ok (s2, h2) →
      cin.request_id = h2.request_id →
      user_can_create_help_request u = true →
      dbGetRequest s2 cin.request_id = some req2 →
      req2.master_id = some u.id →
      ¬pyStrip cin.message = "" →
      ∃ out, create_help_request s2 u cin = .ok out) ∧
    (∀ (s : Store) (u : User) (data : RequestInput) (today : Int)
        (s2 : Store) (r : RepairRequest), atMostOneOpen s →
      save_request s u data today = .ok (s2, r) → atMostOneOpen s2) ∧
    (∀ (s : Store) (u : User) (rid : Nat) (s2 : Store), atMostOneOpen s →
      delete_request s u rid = .ok s2 → atMostOneOpen s2) ∧
    (∀ (s : Store) (u : User) (rid : Nat) (msg : String) (s2 : Store)
        (c : RequestComment), atMostOneOpen s →
      add_comment s u rid msg = .ok (s2, c) → atMostOneOpen s2) ∧
    (∀ (s : Store) (u : User) (cin : HelpRequestCreateInput) (s2 : Store)
        (hr : HelpRequest), atMostOneOpen s →
      create_help_request s u cin = .ok (s2, hr) → atMostOneOpen s2) ∧
    (∀ (s : Store) (u : User) (cdata : HelpRequestCloseInput) (now : Int)
        (s2 : Store) (h2 : HelpRequest), atMostOneOpen s →
      close_help_request s u cdata now = .ok (s2, h2) →
      atMostOneOpen s2) := by
  refine ⟨?_, ?_, ?_, ?_, ?_, ?_, ?_⟩
  · intro s u cin req hcan hreq hmaster hex
    have hsome : (s.helpRequests.find?
        (fun h => h.request_id == cin.request_id &&
          h.status == "open")).isSome := by
      rw [List.find?_isSome]
      exact hex
    rcases Option.isSome_iff_exists.mp hsome with ⟨x, hx⟩
    simp [create_help_request, hcan, hreq, hmaster, hx]
  · intro s u2 cdata now s2 h2 u cin req2 hinv hclose hrid hcan hreq2
      hmaster hmsg
    obtain ⟨h0, hh0get, hh0open, hid2, hrid2, hstat2, hhelp2⟩ :=
      close_ok_help_shape hclose
    have hmem0 : h0 ∈ s.helpRequests := List.mem_of_find?_eq_some hh0get
    have hp0 : (h0.request_id == cin.request_id &&
        h0.status == "open") = true := by
      simp [hrid, hrid2, hh0open]
    have hnone : s2.helpRequests.find?
        (fun x => x.request_id == cin.request_id &&
          x.status == "open") = none := by
      rw [hhelp2]
      apply List.find?_eq_none.mpr
      intro x hxmem
      rcases List.mem_map.mp hxmem with ⟨y, hymem, hyx⟩
      by_cases hyid : (y.id == h2.id) = true
      · rw [if_pos hyid] at hyx
        subst hyx
        intro hpx
        rw [hstat2] at hpx
        simp at hpx
      · rw [if_neg hyid] at hyx
        subst hyx
        intro hpy
        have hy0 : y = h0 :=
          eq_of_countP_le_one (hinv cin.request_id) y hymem hpy h0 hmem0 hp0
        rw [hy0] at hyid
        exact hyid (by simp [hid2])
    refine ⟨({ s2 with
        helpRequests := s2.helpRequests ++ [{
          id := s2.nextId, request_id := cin.request_id,
          created_by_master_id := u.id, quality_manager_id := none,
          assigned_master_id := none, status := "open",
          message := pyStrip cin.message, resolution_note := none,
          proposed_due_date := cin.proposed_due_date, closed_at := none }],
        nextId := s2.nextId + 1 }, {
        id := s2.nextId, request_id := cin.request_id,
        created_by_master_id := u.id, quality_manager_id := none,
        assigned_master_id := none, status := "open",
        message := pyStrip cin.message, resolution_note := none,
        proposed_due_date := cin.proposed_due_date,
        closed_at := none }), ?_⟩
    simp [create_help_request, hcan, hreq2, hmaster, hnone, hmsg]
  · intro s u data today s2 r hinv h
    intro rid
    unfold openCount
    rw [save_ok_same_help h]
    exact hinv rid
  · intro s u rid s2 hinv h
    intro rid2
    unfold openCount
    rw [delete_ok_help h]
    exact Nat.le_trans (countP_filter_le _ _ _) (hinv rid2)
  · intro s u rid msg s2 c hinv h
    intro rid2
    unfold openCount
    rw [add_comment_ok_same_help h]
    exact hinv rid2
  · intro s u cin s2 hr hinv h
    obtain ⟨_, _, hnone, _, hhr, hs2⟩ := createHelp_ok_inv h
    intro rid2
    unfold openCount
    rw [hs2]
    show (s.helpRequests ++ [hr]).countP
      (fun h => h.request_id == rid2 && h.status == "open") ≤ 1
    rw [List.countP_append]
    by_cases hr2 : rid2 = cin.request_id
    · rw [hr2]
      have hz : s.helpRequests.countP
          (fun h => h.request_id == cin.request_id && h.status == "open") =
          0 :=
        List.countP_eq_zero.mpr (List.find?_eq_none.mp hnone)
      have hle : ([hr].countP
          (fun h => h.request_id == cin.request_id &&
            h.status == "open")) ≤ 1 := by
        cases hp : (hr.request_id == cin.request_id &&
            hr.status == "open") <;>
          simp [List.countP_cons, hp]
      omega
    · have hz : ([hr].countP
          (fun h => h.request_id == rid2 && h.status == "open")) = 0 := by
        apply List.countP_eq_zero.mpr
        intro a ha
        rw [List.mem_singleton] at ha
        subst ha
        rw [hhr]
        simp
        exact fun hc => absurd hc.symm hr2
      rw [hz]
      exact hinv rid2
  · intro s u cdata now s2 h2 hinv h
    obtain ⟨h0, _, _, _, _, hstat2, hhelp2⟩ := close_ok_help_shape h
    intro rid2
    unfold openCount
    rw [hhelp2]
    refine Nat.le_trans (countP_map_le _ _ ?_ _) (hinv rid2)
    intro x hx
    by_cases hxid : (x.id == h2.id) = true
    · rw [if_pos hxid] at hx
      rw [hstat2] at hx
      simp at hx
    · rwa [if_neg hxid] at hx

/-- Witness for C1: with an open help request already recorded for ticket
10, the assigned master's second open attempt fails with
`HelpRequestAlreadyOpen`. -/
theorem c1_witness :
    create_help_request
      { statuses := [⟨1, "В работе", false⟩], users := [⟨2, "Мастер"⟩],
        equipmentModels := [], issueTypes := [],
        requests := [{
          id := some 10, start_date := 100,
          equipment_model_id := 1, issue_type_id := 1,
          problem_description := "x", status := ⟨1, "В работе", false⟩,
          completion_date := none, due_date := none, repair_parts := none,
          master_id := some 2, client_id := some 7 }],
        comments := [],
        helpRequests := [{
          id := 20, request_id := 10,
          created_by_master_id := 2, quality_manager_id := none,
          assigned_master_id := none, status := "open", message := "m",
          resolution_note := none, proposed_due_date := none,
          closed_at := none }],
        nextId := 21 }
      ⟨2, "Мастер"⟩
      { request_id := 10, message := "help", proposed_due_date := none } =
      .error (.domain .helpRequestAlreadyOpen) :=
  c1_open_escalation_exclusive.1 _ _ _
    {
      id := some 10, start_date := 100, equipment_model_id := 1,
      issue_type_id := 1, problem_description := "x",
      status := ⟨1, "В работе", false⟩, completion_date := none,
      due_date := none, repair_parts := none, master_id := some 2,
      client_id := some 7 }
    (by decide) (by decide) (by decide)
    ⟨{
      id := 20, request_id := 10, created_by_master_id := 2,
      quality_manager_id := none, assigned_master_id := none,
      status := "open", message := "m", resolution_note := none,
      proposed_due_date := none, closed_at := none },
      by decide, by decide⟩

/-- C10: `create_help_request` never inspects the ticket's status.  With the
ticket's current status final, an assigned master-class actor still opens a
help request successfully provided the ticket exists, no open help request
exists for it, and the message is non-empty. -/
theorem c10_open_ignores_status (s : Store) (u : User)
    (cin : HelpRequestCreateInput) (req : RepairRequest)
    (hfinal : req.status.is_final = true)
    (hcan : user_can_create_help_request u = true)
    (hreq : dbGetRequest s cin.request_id = some req)
    (hmaster : req.master_id = some u.id)
    (hopen : s.helpRequests.find?
      (fun h => h.request_id == cin.request_id && h.status == "open") =
        none)
    (hmsg : ¬pyStrip cin.message = "") :
    create_help_request s u cin = .ok ({ s with
        helpRequests := s.helpRequests ++ [{
          id := s.nextId, request_id := cin.request_id,
          created_by_master_id := u.id, quality_manager_id := none,
          assigned_master_id := none, status := "open",
          message := pyStrip cin.message, resolution_note := none,
          proposed_due_date := cin.proposed_due_date, closed_at := none }],
        nextId := s.nextId + 1 }, {
        id := s.nextId, request_id := cin.request_id,
        created_by_master_id := u.id, quality_manager_id := none,
        assigned_master_id := none, status := "open",
        message := pyStrip cin.message, resolution_note := none,
        proposed_due_date := cin.proposed_due_date, closed_at := none }) := by
  simp [create_help_request, hcan, hreq, hmaster, hopen, hmsg]

/-- Witness for C10: a master opens an escalation on their ticket whose
status is final. -/
theorem c10_witness :
    create_help_request
      { statuses := [⟨2, "Завершена", true⟩], users := [⟨2, "Мастер"⟩],
        equipmentModels := [], issueTypes := [],
        requests := [{
          id := some 10, start_date := 100, equipment_model_id := 1,
          issue_type_id := 1, problem_description := "x",
          status := ⟨2, "Завершена", true⟩, completion_date := some 110,
          due_date := none, repair_parts := none, master_id := some 2,
          client_id := some 7 }],
        comments := [], helpRequests := [], nextId := 30 }
      ⟨2, "Мастер"⟩
      { request_id := 10, message := " help ", proposed_due_date := none } =
      .ok ({
        statuses := [⟨2, "Завершена", true⟩],
        users := [⟨2, "Мастер"⟩], equipmentModels := [], issueTypes := [],
        requests := [{
          id := some 10, start_date := 100, equipment_model_id := 1,
          issue_type_id := 1, problem_description := "x",
          status := ⟨2, "Завершена", true⟩, completion_date := some 110,
          due_date := none, repair_parts := none, master_id := some 2,
          client_id := some 7 }],
        comments := [],
        helpRequests := [{
          id := 30, request_id := 10, created_by_master_id := 2,
          quality_manager_id := none, assigned_master_id := none,
          status := "open", message := "help", resolution_note := none,
          proposed_due_date := none, closed_at := none }],
        nextId := 31 }, {
        id := 30, request_id := 10, created_by_master_id := 2,
        quality_manager_id := none, assigned_master_id := none,
        status := "open", message := "help", resolution_note := none,
        proposed_due_date := none, closed_at := none }) := by
  have h := c10_open_ignores_status
    { statuses := [⟨2, "Завершена", true⟩], users := [⟨2, "Мастер"⟩],
      equipmentModels := [], issueTypes := [],
      requests := [{
        id := some 10, start_date := 100, equipment_model_id := 1,
        issue_type_id := 1, problem_description := "x",
        status := ⟨2, "Завершена", true⟩, completion_date := some 110,
        due_date := none, repair_parts := none, master_id := some 2,
        client_id := some 7 }],
      comments := [], helpRequests := [], nextId := 30 }
    ⟨2, "Мастер"⟩
    { request_id := 10, message := " help ", proposed_due_date := none }
    {
      id := some 10, start_date := 100, equipment_model_id := 1,
      issue_type_id := 1, problem_description := "x",
      status := ⟨2, "Завершена", true⟩, completion_date := some 110,
      due_date := none, repair_parts := none, master_id := some 2,
      client_id := some 7 }
    rfl rfl (by decide) rfl (by decide) (by decide)
  exact h

/-- C6: closing an already-closed help request raises
`BusinessRuleViolation`, as does closing with a new due date strictly
earlier than the parent ticket's start date.  In the embedding an erroring
operation returns no successor store (the caller rolls the transaction
back), so neither the ticket nor the help request is mutated; in the source
both checks run before any field assignment. -/
theorem c6_close_rejections :
    (∀ (s : Store) (u : User) (data : HelpRequestCloseInput) (now : Int)
        (h0 : HelpRequest),
      user_can_handle_help_request u = true →
      dbGetHelp s data.help_id = some h0 →
      ¬h0.status = "open" →
      close_help_request s u data now =
        .error (.domain .businessRuleViolation)) ∧
    (∀ (s : Store) (u : User) (data : HelpRequestCloseInput) (now : Int)
        (h0 : HelpRequest) (req0 : RepairRequest) (d : Int),
      user_can_handle_help_request u = true →
      dbGetHelp s data.help_id = some h0 →
      h0.status = "open" →
      dbGetRequest s h0.request_id = some req0 →
      data.new_due_date = some d →
      d < req0.start_date →
      close_help_request s u data now =
        .error (.domain .businessRuleViolation)) := by
  constructor
  · intro s u data now h0 hcan hh0 hclosed
    simp [close_help_request, hcan, hh0, hclosed]
  · intro s u data now h0 req0 d hcan hh0 hopen hreq0 hd hlt
    simp [close_help_request, hcan, hh0, hopen, hreq0, hd, hlt]

/-- Witness for C6: double-closing help request 20, already in state
closed, is rejected with a business-rule error. -/
theorem c6_witness :
    close_help_request
      { statuses := [], users := [⟨3, "Менеджер по качеству"⟩],
        equipmentModels := [], issueTypes := [], requests := [],
        comments := [],
        helpRequests := [{
          id := 20, request_id := 10, created_by_master_id := 2,
          quality_manager_id := some 3, assigned_master_id := none,
          status := "closed", message := "m",
          resolution_note := some "done", proposed_due_date := none,
          closed_at := some 4 }],
        nextId := 21 }
      ⟨3, "Менеджер по качеству"⟩
      { help_id := 20, resolution_note := "again",
        assigned_master_id := none, new_due_date := none } 9 =
      .error (.domain .businessRuleViolation) :=
  c6_close_rejections.1 _ _ _ 9
    {
      id := 20, request_id := 10, created_by_master_id := 2,
      quality_manager_id := some 3, assigned_master_id := none,
      status := "closed", message := "m", resolution_note := some "done",
      proposed_due_date := none, closed_at := some 4 }
    (by decide) (by decide) (by decide)

/-- Looking up a ticket after `db.add` of a row that keeps its primary key
returns the stored row. -/
theorem dbGetRequest_dbAddRequest (X : Store) (r2 : RepairRequest)
    (rid : Nat) (hid : r2.id = some rid)
    (hex : (X.requests.find? (fun r => r.id == some rid)).isSome = true) :
    dbGetRequest (dbAddRequest X r2).1 rid = some r2 := by
  unfold dbGetRequest dbAddRequest
  rw [hid]
  simp only []
  rw [find?_map_replace (fun r => r.id == some rid) r2 (by simp [hid])]
  rcases Option.isSome_iff_exists.mp hex with ⟨y, hy⟩
  rw [hy]
  rfl

/-- C5: effects of a successful escalation close: state closed, closing
actor recorded, close timestamp stamped, resolution note trimmed-or-null;
when a master id was supplied that user exists, is master-class, and both
the ticket's master and the help request's mirror now reference them; when
a new due date was supplied the ticket's due date is overwritten. -/
theorem c5_close_success_effects (s : Store) (u : User)
    (data : HelpRequestCloseInput) (now : Int) (s2 : Store)
    (h2 : HelpRequest)
    (h : close_help_request s u data now = .ok (s2, h2)) :
    h2.status = "closed" ∧
    h2.quality_manager_id = some u.id ∧
    h2.closed_at = some now ∧
    h2.resolution_note = (if pyStrip data.resolution_note == "" then none
      else some (pyStrip data.resolution_note)) ∧
    (∀ m, data.assigned_master_id = some m →
      (∃ mu, dbGetUser s m = some mu ∧ is_master_role mu.role = true) ∧
      h2.assigned_master_id = some m) ∧
    (∃ req2, dbGetRequest s2 h2.request_id = some req2 ∧
      (∀ m, data.assigned_master_id = some m → req2.master_id = some m) ∧
      (∀ d, data.new_due_date = some d → req2.due_date = some d)) := by
  rcases close_ok_inv h with ⟨h0, req0, hcan, hh0, hopen, hreq0, hdue, hbr⟩
  have hreq0id : req0.id = some h0.request_id := by
    have := List.find?_some hreq0
    simpa using this
  have hex : (s.requests.find?
      (fun r => r.id == some h0.request_id)).isSome = true := by
    rw [show s.requests.find? (fun r => r.id == some h0.request_id) =
      dbGetRequest s h0.request_id from rfl, hreq0]
    rfl
  rcases hbr with ⟨hmnone, hfc⟩ | ⟨mid, mu, hmid, hmu, hmrole, hfc⟩
  · have hfst := congrArg Prod.fst hfc
    have hsnd := congrArg Prod.snd hfc
    simp only [] at hfst hsnd
    subst hsnd
    refine ⟨rfl, rfl, rfl, rfl, ?_, ?_⟩
    · intro m hm
      rw [hmnone] at hm
      cases hm
    · rcases hdd : data.new_due_date with _ | d
      · refine ⟨req0, ?_, ?_, ?_⟩
        · rw [hfst]
          unfold finishClose
          dsimp only []
          rw [hdd]
          exact dbGetRequest_dbAddRequest _ _ _ hreq0id hex
        · intro m hm
          rw [hmnone] at hm
          cases hm
        · intro d hd
          simp at hd
      · refine ⟨{ req0 with due_date := some d }, ?_, ?_, ?_⟩
        · rw [hfst]
          unfold finishClose
          dsimp only []
          rw [hdd]
          exact dbGetRequest_dbAddRequest _ _ _ (by simpa using hreq0id)
            hex
        · intro m hm
          rw [hmnone] at hm
          cases hm
        · intro d2 hd2
          cases hd2
          rfl
  · have hfst := congrArg Prod.fst hfc
    have hsnd := congrArg Prod.snd hfc
    simp only [] at hfst hsnd
    subst hsnd
    have hmuid : mu.id = mid := by
      have := List.find?_some hmu
      simpa using this
    refine ⟨rfl, rfl, rfl, rfl, ?_, ?_⟩
    · intro m hm
      rw [hmid] at hm
      cases hm
      refine ⟨⟨mu, hmu, hmrole⟩, ?_⟩
      show some mu.id = some mid
      rw [hmuid]
    · rcases hdd : data.new_due_date with _ | d
      · refine ⟨{ req0 with master_id := some mu.id }, ?_, ?_, ?_⟩
        · rw [hfst]
          unfold finishClose
          dsimp only []
          rw [hdd]
          exact dbGetRequest_dbAddRequest _ _ _ (by simpa using hreq0id)
            hex
        · intro m hm
          rw [hmid] at hm
          cases hm
          show some mu.id = some mid
          rw [hmuid]
        · intro d hd
          simp at hd
      · refine ⟨{ req0 with
            master_id := some mu.id, due_date := some d }, ?_, ?_, ?_⟩
        · rw [hfst]
          unfold finishClose
          dsimp only []
          rw [hdd]
          exact dbGetRequest_dbAddRequest _ _ _ (by simpa using hreq0id)
            hex
        · intro m hm
          rw [hmid] at hm
          cases hm
          show some mu.id = some mid
          rw [hmuid]
        · intro d2 hd2
          cases hd2
          rfl

/-! Further frame/field helpers for the save path. -/

theorem dbAddRequest_snd_fields (s : Store) (req : RepairRequest) :
    (dbAddRequest s req).2.status = req.status ∧
    (dbAddRequest s req).2.completion_date = req.completion_date ∧
    (dbAddRequest s req).2.client_id = req.client_id ∧
    (dbAddRequest s req).2.master_id = req.master_id ∧
    (dbAddRequest s req).2.due_date = req.due_date := by
  unfold dbAddRequest
  split <;> exact ⟨rfl, rfl, rfl, rfl, rfl⟩

theorem apply_completion_date_val (req : RepairRequest)
    (ns : RequestStatus) (data : RequestInput) (today : Int) :
    (_apply_completion_date req ns data today).completion_date =
      (if ns.is_final = true then some (data.completion_date.getD today)
        else data.completion_date) := by
  unfold _apply_completion_date
  split <;> rfl

theorem get_new_request_status_congr {s1 s2 : Store}
    (h : s1.statuses = s2.statuses) :
    get_new_request_status s1 = get_new_request_status s2 := by
  unfold get_new_request_status
  rw [h]

/-- The saved ticket's status is the resolved status, and its completion
date follows `usecases._apply_completion_date`. -/
theorem finishSave_ok_status_completion {s : Store} {u : User}
    {data : RequestInput} {today : Int} {req0 : RepairRequest}
    {ns : RequestStatus} {em : EquipmentModel} {it : IssueType}
    {s2 : Store} {r : RepairRequest}
    (h : finishSave s u data today req0 ns em it = .ok (s2, r)) :
    r.status = ns ∧
    r.completion_date =
      (if ns.is_final = true then some (data.completion_date.getD today)
        else data.completion_date) := by
  rcases finishSave_ok_inv h with ⟨req6, hcl, hs2, hr⟩
  have h6 := apply_client_ok_frame hcl
  have h5 := apply_master_frame u (_apply_repair_parts u (_apply_due_date u
    (_apply_completion_date { req0 with
      start_date := data.start_date, equipment_model_id := em.id,
      issue_type_id := it.id,
      problem_description := data.problem_description,
      status := ns } ns data today) data) data) data
  have h4 := apply_repair_parts_frame u (_apply_due_date u
    (_apply_completion_date { req0 with
      start_date := data.start_date, equipment_model_id := em.id,
      issue_type_id := it.id,
      problem_description := data.problem_description,
      status := ns } ns data today) data) data
  have h3 := apply_due_date_frame u
    (_apply_completion_date { req0 with
      start_date := data.start_date, equipment_model_id := em.id,
      issue_type_id := it.id,
      problem_description := data.problem_description,
      status := ns } ns data today) data
  have h2 := apply_completion_date_frame { req0 with
    start_date := data.start_date, equipment_model_id := em.id,
    issue_type_id := it.id,
    problem_description := data.problem_description,
    status := ns } ns data today
  have hv := apply_completion_date_val { req0 with
    start_date := data.start_date, equipment_model_id := em.id,
    issue_type_id := it.id,
    problem_description := data.problem_description,
    status := ns } ns data today
  constructor
  · rw [hr, (dbAddRequest_snd_fields s req6).1, h6.1, h5.1, h4.1, h3.1,
      h2.1]
  · rw [hr, (dbAddRequest_snd_fields s req6).2.1, h6.2.1, h5.2.1, h4.2.1,
      h3.2.1, hv]

theorem delete_ok_requests {s : Store} {u : User} {rid : Nat} {s2 : Store}
    (h : delete_request s u rid = .ok s2) :
    s2.requests = s.requests.filter (fun x => !(x.id == some rid)) := by
  unfold delete_request at h
  split at h
  · cases h
  · split at h
    · cases h
    · cases h
      rfl

theorem add_comment_ok_same_requests {s : Store} {u : User} {rid : Nat}
    {msg : String} {s2 : Store} {c : RequestComment}
    (h : add_comment s u rid msg = .ok (s2, c)) :
    s2.requests = s.requests := by
  unfold add_comment at h
  dsimp only [] at h
  split at h
  · cases h
  · split at h
    · cases h
    · split at h
      · cases h
      · cases h
        rfl

/-- True when a save returned a ticket rather than raising. -/
def saveIsOk (r : Except EngineError (Store × RepairRequest)) : Bool :=
  match r with
  | .ok _ => true
  | .error _ => false

/-- Counterexample for C4.  First: with one configured status, final and
not named "Новая заявка", a Client create fails with the untyped
`RuntimeError` of `services.get_new_request_status`, which is not the
claimed `BusinessRuleViolation` (nor any `DomainError`; `app/main.py` only
catches `usecases.DomainError`).  Second: with one configured status that
is final but named "Новая заявка", no non-final status is configured and
yet the save succeeds. -/
theorem c4_counterexample :
    save_request
      { statuses := [⟨2, "Завершена", true⟩], users := [⟨7, "Заказчик"⟩],
        equipmentModels := [], issueTypes := [], requests := [],
        comments := [], helpRequests := [], nextId := 1 }
      ⟨7, "Заказчик"⟩
      { id := none, start_date := 100, equipment_type_id := 1,
        equipment_model_name := "M", issue_type_id := none,
        problem_description := "p", status_id := some 2,
        completion_date := none, due_date := none, repair_parts := none,
        master_id := none, client_id := none } 500 =
      .error .runtime ∧
    EngineError.runtime ≠
      EngineError.domain DomainError.businessRuleViolation ∧
    saveIsOk (save_request
      { statuses := [⟨2, "Новая заявка", true⟩], users := [⟨7, "Заказчик"⟩],
        equipmentModels := [], issueTypes := [], requests := [],
        comments := [], helpRequests := [], nextId := 1 }
      ⟨7, "Заказчик"⟩
      { id := none, start_date := 100, equipment_type_id := 1,
        equipment_model_name := "M", issue_type_id := none,
        problem_description := "p", status_id := some 2,
        completion_date := none, due_date := none, repair_parts := none,
        master_id := none, client_id := none } 500) = true := by
  exact ⟨rfl, by decide, rfl⟩

/-- C4 (amended): when a Client creates a ticket via save, the resulting
status is exactly the result of the new-ticket default lookup
(`services.get_new_request_status`: the status literally named
"Новая заявка" even if final, else the least-id non-final status),
regardless of any submitted status id; and when no status bears that name
and no non-final status is configured, the save fails with the untyped
`RuntimeError` — not with a `BusinessRuleViolation` domain failure. -/
theorem c4_client_create_default_status :
    (∀ (s : Store) (u : User) (data : RequestInput) (today : Int)
        (s2 : Store) (r : RepairRequest),
      u.role = ROLE_CLIENT → data.id = none →
      save_request s u data today = .ok (s2, r) →
      get_new_request_status s = .ok r.status) ∧
    (∀ (s : Store) (u : User) (data : RequestInput) (today : Int),
      u.role = ROLE_CLIENT → data.id = none →
      s.statuses.find? (fun st => st.name == "Новая заявка") = none →
      (∀ st ∈ s.statuses, st.is_final = true) →
      save_request s u data today = .error .runtime) := by
  constructor
  · intro s u data today s2 r hrole hid h
    rcases save_ok_inv h with ⟨_, hcan, ns, hns, hfin⟩ |
      ⟨rid, req0, hid2, _⟩
    · have hstat := (finishSave_ok_status_completion hfin).1
      unfold _resolve_new_status_for_create at hns
      rw [if_pos (by simp [hrole])] at hns
      rw [hstat, ← hns]
      exact (get_new_request_status_congr (resolve_ei_fields s data).1).symm
    · rw [hid] at hid2
      cases hid2
  · intro s u data today hrole hid hname hall
    have hcan : user_can_create_request u = true := by
      simp [user_can_create_request, hrole]
    have hres : _resolve_new_status_for_create
        (_resolve_equipment_and_issue s data).1 u data =
          .error .runtime := by
      unfold _resolve_new_status_for_create
      rw [if_pos (by simp [hrole])]
      unfold get_new_request_status
      rw [(resolve_ei_fields s data).1, hname]
      have hfilter : s.statuses.filter (fun st => !st.is_final) = [] := by
        rw [List.filter_eq_nil_iff]
        intro a ha
        simp [hall a ha]
      rw [hfilter]
      rfl
    simp [save_request, hid, hcan, hres]

/-- Witness for C4: the amended failure case evaluated at a store with a
single final status. -/
theorem c4_witness :
    save_request
      { statuses := [⟨3, "Закрыта", true⟩], users := [⟨7, "Заказчик"⟩],
        equipmentModels := [], issueTypes := [], requests := [],
        comments := [], helpRequests := [], nextId := 1 }
      ⟨7, "Заказчик"⟩
      { id := none, start_date := 100, equipment_type_id := 1,
        equipment_model_name := "M", issue_type_id := none,
        problem_description := "p", status_id := none,
        completion_date := none, due_date := none, repair_parts := none,
        master_id := none, client_id := none } 500 = .error .runtime :=
  c4_client_create_default_status.2 _ _ _ 500 rfl rfl (by decide)
    (by decide)

/-- Tickets touched by a close keep their status and completion date. -/
theorem finishClose_mem_requests (s : Store) (u : User)
    (data : HelpRequestCloseInput) (now : Int) (req : RepairRequest)
    (h0 : HelpRequest) :
    ∀ x ∈ (finishClose s u data now req h0).1.requests,
      x ∈ s.requests ∨
        (x.status = req.status ∧
          x.completion_date = req.completion_date) := by
  intro x hx
  unfold finishClose at hx
  dsimp only [] at hx
  rcases dbAddRequest_mem _ _ x hx with h1 | h2
  · exact Or.inl h1
  · right
    constructor
    · rw [h2, (dbAddRequest_snd_fields _ _).1]
      cases data.new_due_date <;> rfl
    · rw [h2, (dbAddRequest_snd_fields _ _).2.1]
      cases data.new_due_date <;> rfl

/-- C7: after every successful save the ticket's completion date is forced
to the submitted date (today when absent) when the resolved status is
final, and equals the submitted value verbatim when it is not; every engine
operation preserves the invariant that a final-status ticket has a
completion date. -/
theorem c7_completion_date_invariant :
    (∀ (s : Store) (u : User) (data : RequestInput) (today : Int)
        (s2 : Store) (r : RepairRequest),
      save_request s u data today = .ok (s2, r) →
      (r.status.is_final = true →
        r.completion_date = some (data.completion_date.getD today)) ∧
      (r.status.is_final = false →
        r.completion_date = data.completion_date)) ∧
    (∀ (s : Store) (u : User) (data : RequestInput) (today : Int)
        (s2 : Store) (r : RepairRequest), completionInv s →
      save_request s u data today = .ok (s2, r) → completionInv s2) ∧
    (∀ (s : Store) (u : User) (rid : Nat) (s2 : Store), completionInv s →
      delete_request s u rid = .ok s2 → completionInv s2) ∧
    (∀ (s : Store) (u : User) (rid : Nat) (msg : String) (s2 : Store)
        (c : RequestComment), completionInv s →
      add_comment s u rid msg = .ok (s2, c) → completionInv s2) ∧
    (∀ (s : Store) (u : User) (cin : HelpRequestCreateInput) (s2 : Store)
        (hr : HelpRequest), completionInv s →
      create_help_request s u cin = .ok (s2, hr) → completionInv s2) ∧
    (∀ (s : Store) (u : User) (cdata : HelpRequestCloseInput) (now : Int)
        (s2 : Store) (h2 : HelpRequest), completionInv s →
      close_help_request s u cdata now = .ok (s2, h2) →
      completionInv s2) := by
  refine ⟨?_, ?_, ?_, ?_, ?_, ?_⟩
  · intro s u data today s2 r h
    rcases save_ok_inv h with ⟨_, _, ns, _, hfin⟩ |
      ⟨rid, req0, _, _, _, ns, _, hfin⟩ <;>
    · have hsc := finishSave_ok_status_completion hfin
      constructor
      · intro hf
        rw [hsc.1] at hf
        rw [hsc.2, if_pos hf]
      · intro hf
        rw [hsc.1] at hf
        rw [hsc.2, if_neg (by simp [hf])]
  · intro s u data today s2 r hinv h x hx hxf
    rcases save_ok_inv h with ⟨_, _, ns, _, hfin⟩ |
      ⟨rid, req0, _, _, _, ns, _, hfin⟩ <;>
    · rcases finishSave_ok_inv hfin with ⟨req6, hcl, hs2, hr⟩
      rw [hs2] at hx
      rcases dbAddRequest_mem _ _ x hx with hxold | hxeq
      · rw [(resolve_ei_fields s data).2.2.1] at hxold
        exact hinv x hxold hxf
      · rw [← hr] at hxeq
        subst hxeq
        have hsc := finishSave_ok_status_completion hfin
        rw [hsc.1] at hxf
        rw [hsc.2, if_pos hxf]
        rfl
  · intro s u rid s2 hinv h x hx hxf
    rw [delete_ok_requests h] at hx
    exact hinv x (List.mem_of_mem_filter hx) hxf
  · intro s u rid msg s2 c hinv h x hx hxf
    rw [add_comment_ok_same_requests h] at hx
    exact hinv x hx hxf
  · intro s u cin s2 hr hinv h x hx hxf
    obtain ⟨_, _, _, _, _, hs2⟩ := createHelp_ok_inv h
    rw [hs2] at hx
    exact hinv x hx hxf
  · intro s u cdata now s2 h2 hinv h x hx hxf
    rcases close_ok_inv h with ⟨h0, req0, _, hh0, _, hreq0, _, hbr⟩
    have hmem0 : req0 ∈ s.requests := List.mem_of_find?_eq_some hreq0
    rcases hbr with ⟨_, hfc⟩ | ⟨mid, mu, _, _, _, hfc⟩ <;>
    · have hfst := congrArg Prod.fst hfc
      simp only [] at hfst
      rw [hfst] at hx
      rcases finishClose_mem_requests _ _ _ _ _ _ x hx with h1 | h2
      · exact hinv x h1 hxf
      · rw [h2.1] at hxf
        rw [h2.2]
        exact hinv req0 hmem0 hxf

/-- Witness for C7: the preservation conjunct for delete evaluated on a
concrete store; the surviving table still satisfies the invariant. -/
theorem c7_witness :
    completionInv
      { statuses := [⟨2, "Завершена", true⟩], users := [⟨1, "Менеджер"⟩],
        equipmentModels := [], issueTypes := [], requests := [],
        comments := [], helpRequests := [], nextId := 30 } :=
  c7_completion_date_invariant.2.2.1
    { statuses := [⟨2, "Завершена", true⟩], users := [⟨1, "Менеджер"⟩],
      equipmentModels := [], issueTypes := [],
      requests := [{
        id := some 10, start_date := 100, equipment_model_id := 1,
        issue_type_id := 1, problem_description := "x",
        status := ⟨2, "Завершена", true⟩, completion_date := some 110,
        due_date := none, repair_parts := none, master_id := some 2,
        client_id := some 7 }],
      comments := [], helpRequests := [], nextId := 30 }
    ⟨1, "Менеджер"⟩ 10
    { statuses := [⟨2, "Завершена", true⟩], users := [⟨1, "Менеджер"⟩],
      equipmentModels := [], issueTypes := [], requests := [],
      comments := [], helpRequests := [], nextId := 30 }
    (by unfold completionInv; decide) rfl

/-- Concrete store for the C5 witness: one open help request on ticket 10,
whose master is user 2; user 3 is the quality manager. -/
def c5Store : Store :=
  { statuses := [⟨1, "В работе", false⟩],
    users := [⟨2, "Мастер"⟩, ⟨3, "Менеджер по качеству"⟩],
    equipmentModels := [], issueTypes := [],
    requests := [{
      id := some 10, start_date := 100, equipment_model_id := 1,
      issue_type_id := 1, problem_description := "x",
      status := ⟨1, "В работе", false⟩, completion_date := none,
      due_date := none, repair_parts := none, master_id := some 2,
      client_id := some 7 }],
    comments := [],
    helpRequests := [{
      id := 20, request_id := 10, created_by_master_id := 2,
      quality_manager_id := none, assigned_master_id := none,
      status := "open", message := "m", resolution_note := none,
      proposed_due_date := none, closed_at := none }],
    nextId := 21 }

/-- The C5 witness close call: reassign master 2, move the due date,
resolution note with surrounding whitespace. -/
def c5Input : HelpRequestCloseInput :=
  { help_id := 20, resolution_note := "  готово  ",
    assigned_master_id := some 2, new_due_date := some 150 }

/-- The store after the C5 witness close. -/
def c5Store2 : Store :=
  { statuses := [⟨1, "В работе", false⟩],
    users := [⟨2, "Мастер"⟩, ⟨3, "Менеджер по качеству"⟩],
    equipmentModels := [], issueTypes := [],
    requests := [{
      id := some 10, start_date := 100, equipment_model_id := 1,
      issue_type_id := 1, problem_description := "x",
      status := ⟨1, "В работе", false⟩, completion_date := none,
      due_date := some 150, repair_parts := none, master_id := some 2,
      client_id := some 7 }],
    comments := [],
    helpRequests := [{
      id := 20, request_id := 10, created_by_master_id := 2,
      quality_manager_id := some 3, assigned_master_id := some 2,
      status := "closed", message := "m",
      resolution_note := some "готово", proposed_due_date := none,
      closed_at := some 5 }],
    nextId := 21 }

/-- The help request returned by the C5 witness close. -/
def c5Help2 : HelpRequest :=
  { id := 20, request_id := 10, created_by_master_id := 2,
    quality_manager_id := some 3, assigned_master_id := some 2,
    status := "closed", message := "m", resolution_note := some "готово",
    proposed_due_date := none, closed_at := some 5 }

/-- Witness for C5: the success-effects theorem applied to a concrete
close with a reassigned master and a renegotiated due date. -/
theorem c5_witness :
    close_help_request c5Store ⟨3, "Менеджер по качеству"⟩ c5Input 5 =
      .ok (c5Store2, c5Help2) ∧
    c5Help2.status = "closed" ∧ c5Help2.closed_at = some 5 := by
  have h : close_help_request c5Store ⟨3, "Менеджер по качеству"⟩
      c5Input 5 = .ok (c5Store2, c5Help2) := rfl
  refine ⟨h, ?_, ?_⟩
  · exact (c5_close_success_effects c5Store ⟨3, "Менеджер по качеству"⟩
      c5Input 5 c5Store2 c5Help2 h).1
  · exact (c5_close_success_effects c5Store ⟨3, "Менеджер по качеству"⟩
      c5Input 5 c5Store2 c5Help2 h).2.2.1

/-- `_resolve_new_status_for_create` for a non-Client actor either resolves
a status or raises the generic business-rule error. -/
theorem resolve_create_not_client (s : Store) (u : User)
    (data : RequestInput) (h : ¬u.role = ROLE_CLIENT) :
    (∃ ns, _resolve_new_status_for_create s u data = .ok ns) ∨
      _resolve_new_status_for_create s u data =
        .error (.domain .businessRuleViolation) := by
  unfold _resolve_new_status_for_create
  rw [if_neg (by simp [h])]
  split
  · exact Or.inr rfl
  · split
    · exact Or.inr rfl
    next st _ => exact Or.inl ⟨st, rfl⟩

/-- `_apply_client` raises the business-rule error on the create path for
any actor outside the Client/Manager/Operator roles. -/
theorem apply_client_create_error (u : User) (req : RepairRequest)
    (data : RequestInput) (h1 : ¬u.role = ROLE_CLIENT)
    (h2 : ¬u.role = ROLE_MANAGER) (h3 : ¬u.role = ROLE_OPERATOR)
    (hid : req.id = none) :
    _apply_client u req data = .error (.domain .businessRuleViolation) := by
  unfold _apply_client
  rw [if_neg (by simp [h1]), if_neg (by simp [h2, h3]),
    if_pos (by simp [hid])]

/-- On a successful update, the saved client field is decided by the
actor's role: Client forces self, Manager/Operator store the submitted id,
every other role leaves the loaded ticket's client untouched. -/
theorem save_update_client_cases {s : Store} {u : User}
    {data : RequestInput} {today : Int} {rid : Nat}
    {req0 : RepairRequest} {s2 : Store} {r : RepairRequest}
    (hid : data.id = some rid)
    (hreq0 : dbGetRequest s rid = some req0)
    (h : save_request s u data today = .ok (s2, r)) :
    (u.role = ROLE_CLIENT ∧ r.client_id = some u.id) ∨
    ((u.role = ROLE_MANAGER ∨ u.role = ROLE_OPERATOR) ∧
      r.client_id = data.client_id) ∨
    (¬u.role = ROLE_CLIENT ∧ ¬u.role = ROLE_MANAGER ∧
      ¬u.role = ROLE_OPERATOR ∧ r.client_id = req0.client_id) := by
  rcases save_ok_inv h with ⟨hidn, _⟩ |
    ⟨rid2, req0', hid2, hreq0', hedit, ns, hns, hfin⟩
  · rw [hid] at hidn
    cases hidn
  · rw [hid] at hid2
    cases hid2
    have hsame : dbGetRequest (_resolve_equipment_and_issue s data).1 rid =
        dbGetRequest s rid := by
      unfold dbGetRequest
      rw [(resolve_ei_fields s data).2.2.1]
    rw [hsame, hreq0] at hreq0'
    cases hreq0'
    rcases finishSave_ok_inv hfin with ⟨req6, hcl, _, hr⟩
    have hrc : r.client_id = req6.client_id := by
      rw [hr, (dbAddRequest_snd_fields _ _).2.2.1]
    rcases apply_client_ok_cases hcl with ⟨hc, hcid⟩ |
      ⟨hmo, _, hcid⟩ | ⟨h1, h2, h3, _, heq⟩
    · exact Or.inl ⟨hc, by rw [hrc, hcid]⟩
    · exact Or.inr (Or.inl ⟨hmo, by rw [hrc, hcid]⟩)
    · refine Or.inr (Or.inr ⟨h1, h2, h3, ?_⟩)
      rw [hrc, heq, (apply_master_frame _ _ _).2.2.1,
        (apply_repair_parts_frame _ _ _).2.2.1,
        (apply_due_date_frame _ _ _).2.2.1,
        (apply_completion_date_frame _ _ _ _).2.1]

/-- Counterexample for C9: a master-class actor attempting a create fails
with `PermissionDenied` (raised by the create-capability check), not with
the business-rule error the claim names. -/
theorem c9_counterexample :
    save_request
      { statuses := [⟨1, "Новая заявка", false⟩], users := [⟨2, "Мастер"⟩],
        equipmentModels := [], issueTypes := [], requests := [],
        comments := [], helpRequests := [], nextId := 1 }
      ⟨2, "Мастер"⟩
      { id := none, start_date := 100, equipment_type_id := 1,
        equipment_model_name := "M", issue_type_id := none,
        problem_description := "p", status_id := some 1,
        completion_date := none, due_date := none, repair_parts := none,
        master_id := none, client_id := some 7 } 500 =
      .error (.domain .permissionDenied) ∧
    DomainError.permissionDenied ≠ DomainError.businessRuleViolation :=
  ⟨rfl, by decide⟩

/-- C9 (amended): on every successful update by a master-class or
QualityManager actor the ticket's client is left unchanged regardless of
the submitted client id; a QualityManager attempting a create fails with
the business-rule error, while a master-class actor attempting a create
fails earlier with `PermissionDenied`; on update the client field is
modified only by a Client (forced to self) or by a Manager/Operator (set
to the supplied id). -/
theorem c9_client_field_frame :
    (∀ (s : Store) (u : User) (data : RequestInput) (today : Int)
        (rid : Nat) (req0 : RepairRequest) (s2 : Store)
        (r : RepairRequest),
      (is_master_role u.role = true ∨ u.role = ROLE_QUALITY_MANAGER) →
      data.id = some rid →
      dbGetRequest s rid = some req0 →
      save_request s u data today = .ok (s2, r) →
      r.client_id = req0.client_id) ∧
    (∀ (s : Store) (u : User) (data : RequestInput) (today : Int),
      u.role = ROLE_QUALITY_MANAGER → data.id = none →
      save_request s u data today =
        .error (.domain .businessRuleViolation)) ∧
    (∀ (s : Store) (u : User) (data : RequestInput) (today : Int),
      is_master_role u.role = true → data.id = none →
      save_request s u data today =
        .error (.domain .permissionDenied)) ∧
    (∀ (s : Store) (u : User) (data : RequestInput) (today : Int)
        (rid : Nat) (s2 : Store) (r : RepairRequest),
      u.role = ROLE_CLIENT → data.id = some rid →
      (∃ req0, dbGetRequest s rid = some req0) →
      save_request s u data today = .ok (s2, r) →
      r.client_id = some u.id) ∧
    (∀ (s : Store) (u : User) (data : RequestInput) (today : Int)
        (rid : Nat) (s2 : Store) (r : RepairRequest),
      (u.role = ROLE_MANAGER ∨ u.role = ROLE_OPERATOR) →
      data.id = some rid →
      (∃ req0, dbGetRequest s rid = some req0) →
      save_request s u data today = .ok (s2, r) →
      r.client_id = data.client_id) := by
  refine ⟨?_, ?_, ?_, ?_, ?_⟩
  · intro s u data today rid req0 s2 r hrole hid hreq0 h
    have hncl : ¬u.role = ROLE_CLIENT := by
      intro hcl
      rcases hrole with hm | hq
      · rw [hcl] at hm
        exact absurd hm (by decide)
      · rw [hcl] at hq
        exact absurd hq (by decide)
    have hnm : ¬u.role = ROLE_MANAGER := by
      intro hcl
      rcases hrole with hm | hq
      · rw [hcl] at hm
        exact absurd hm (by decide)
      · rw [hcl] at hq
        exact absurd hq (by decide)
    have hno : ¬u.role = ROLE_OPERATOR := by
      intro hcl
      rcases hrole with hm | hq
      · rw [hcl] at hm
        exact absurd hm (by decide)
      · rw [hcl] at hq
        exact absurd hq (by decide)
    rcases save_update_client_cases hid hreq0 h with ⟨hc, _⟩ |
      ⟨hmo, _⟩ | ⟨_, _, _, hcid⟩
    · exact absurd hc hncl
    · rcases hmo with hmm | hoo
      · exact absurd hmm hnm
      · exact absurd hoo hno
    · exact hcid
  · intro s u data today hrole hid
    have hncl : ¬u.role = ROLE_CLIENT := by
      rw [hrole]
      decide
    have hnm : ¬u.role = ROLE_MANAGER := by
      rw [hrole]
      decide
    have hno : ¬u.role = ROLE_OPERATOR := by
      rw [hrole]
      decide
    have hcan : user_can_create_request u = true := by
      simp [user_can_create_request, hrole]
    rcases resolve_create_not_client (_resolve_equipment_and_issue s data).1
        u data hncl with ⟨ns, hns⟩ | herr
    · have hchain_id : (_apply_master u (_apply_repair_parts u
          (_apply_due_date u (_apply_completion_date { blankRequest with
            start_date := data.start_date,
            equipment_model_id :=
              (_resolve_equipment_and_issue s data).2.1.id,
            issue_type_id := (_resolve_equipment_and_issue s data).2.2.id,
            problem_description := data.problem_description,
            status := ns } ns data today) data) data) data).id = none := by
        rw [(apply_master_frame _ _ _).2.2.2,
          (apply_repair_parts_frame _ _ _).2.2.2,
          (apply_due_date_frame _ _ _).2.2.2,
          (apply_completion_date_frame _ _ _ _).2.2]
        rfl
      have hac := apply_client_create_error u _ data hncl hnm hno hchain_id
      simp [save_request, hid, hcan, hns, finishSave, hac]
    · simp [save_request, hid, hcan, herr]
  · intro s u data today hm hid
    have hcan : user_can_create_request u = false := by
      have hm' : u.role = ROLE_MASTER ∨ u.role = ROLE_SPECIALIST := by
        simpa [is_master_role] using hm
      unfold user_can_create_request
      rcases hm' with h | h <;> rw [h] <;> rfl
    simp [save_request, hid, hcan]
  · intro s u data today rid s2 r hrole hid hex h
    rcases hex with ⟨req0, hreq0⟩
    rcases save_update_client_cases hid hreq0 h with ⟨_, hcid⟩ |
      ⟨hmo, _⟩ | ⟨h1, _, _, _⟩
    · exact hcid
    · rcases hmo with hmm | hoo
      · rw [hrole] at hmm
        exact absurd hmm (by decide)
      · rw [hrole] at hoo
        exact absurd hoo (by decide)
    · exact absurd hrole h1
  · intro s u data today rid s2 r hrole hid hex h
    rcases hex with ⟨req0, hreq0⟩
    rcases save_update_client_cases hid hreq0 h with ⟨hc, _⟩ |
      ⟨_, hcid⟩ | ⟨_, h2, h3, _⟩
    · rcases hrole with hmm | hoo
      · rw [hc] at hmm
        exact absurd hmm (by decide)
      · rw [hc] at hoo
        exact absurd hoo (by decide)
    · exact hcid
    · rcases hrole with hmm | hoo
      · exact absurd hmm h2
      · exact absurd hoo h3

/-- Witness for C9: a QualityManager create attempt on a concrete store is
rejected with the business-rule error. -/
theorem c9_witness :
    save_request
      { statuses := [⟨1, "Новая заявка", false⟩],
        users := [⟨5, "Менеджер по качеству"⟩], equipmentModels := [],
        issueTypes := [], requests := [], comments := [],
        helpRequests := [], nextId := 1 }
      ⟨5, "Менеджер по качеству"⟩
      { id := none, start_date := 100, equipment_type_id := 1,
        equipment_model_name := "M", issue_type_id := none,
        problem_description := "p", status_id := some 1,
        completion_date := none, due_date := none, repair_parts := none,
        master_id := none, client_id := some 7 } 500 =
      .error (.domain .businessRuleViolation) :=
  c9_client_field_frame.2.1 _ _ _ 500 rfl rfl

/-! Master/Specialist interchangeability (C8).  `swap_master_specialist`
exchanges the two master-class role names and fixes every other string. -/

def swap_master_specialist (r : String) : String :=
  if r == ROLE_MASTER then ROLE_SPECIALIST
  else if r == ROLE_SPECIALIST then ROLE_MASTER
  else r

def swapUser (u : User) : User :=
  { u with role := swap_master_specialist u.role }

def swapStore (s : Store) : Store :=
  { s with users := s.users.map swapUser }

theorem swap_cases (r : String) :
    (r = ROLE_MASTER ∧ swap_master_specialist r = ROLE_SPECIALIST) ∨
    (r = ROLE_SPECIALIST ∧ swap_master_specialist r = ROLE_MASTER) ∨
    (¬r = ROLE_MASTER ∧ ¬r = ROLE_SPECIALIST ∧
      swap_master_specialist r = r) := by
  unfold swap_master_specialist
  by_cases h1 : (r == ROLE_MASTER) = true
  · exact Or.inl ⟨by simpa using h1, by rw [if_pos h1]⟩
  · by_cases h2 : (r == ROLE_SPECIALIST) = true
    · exact Or.inr (Or.inl ⟨by simpa using h2,
        by rw [if_neg h1, if_pos h2]⟩)
    · exact Or.inr (Or.inr ⟨by simpa using h1, by simpa using h2,
        by rw [if_neg h1, if_neg h2]⟩)

theorem swapUser_id (u : User) : (swapUser u).id = u.id := rfl

theorem swap_is_master_role (r : String) :
    is_master_role (swap_master_specialist r) = is_master_role r := by
  rcases swap_cases r with ⟨h, hs⟩ | ⟨h, hs⟩ | ⟨_, _, hs⟩
  · rw [hs, h]
    decide
  · rw [hs, h]
    decide
  · rw [hs]

theorem swap_can_create_request (u : User) :
    user_can_create_request (swapUser u) = user_can_create_request u := by
  obtain ⟨uid, urole⟩ := u
  rcases swap_cases urole with ⟨h, _⟩ | ⟨h, _⟩ | ⟨_, _, hs⟩
  · subst h
    rfl
  · subst h
    rfl
  · unfold swapUser
    dsimp only []
    rw [hs]

theorem swap_can_view_request (u : User) (req : RepairRequest) :
    user_can_view_request (swapUser u) req =
      user_can_view_request u req := by
  obtain ⟨uid, urole⟩ := u
  rcases swap_cases urole with ⟨h, _⟩ | ⟨h, _⟩ | ⟨_, _, hs⟩
  · subst h
    rfl
  · subst h
    rfl
  · unfold swapUser
    dsimp only []
    rw [hs]

theorem swap_can_edit_request (u : User) (req : RepairRequest) :
    user_can_edit_request (swapUser u) req =
      user_can_edit_request u req := by
  obtain ⟨uid, urole⟩ := u
  rcases swap_cases urole with ⟨h, _⟩ | ⟨h, _⟩ | ⟨_, _, hs⟩
  · subst h
    rfl
  · subst h
    rfl
  · unfold swapUser
    dsimp only []
    rw [hs]

theorem swap_can_delete_request (u : User) :
    user_can_delete_request (swapUser u) = user_can_delete_request u := by
  obtain ⟨uid, urole⟩ := u
  rcases swap_cases urole with ⟨h, _⟩ | ⟨h, _⟩ | ⟨_, _, hs⟩
  · subst h
    rfl
  · subst h
    rfl
  · unfold swapUser
    dsimp only []
    rw [hs]

theorem swap_can_add_comment (u : User) (req : RepairRequest) :
    user_can_add_comment (swapUser u) req =
      user_can_add_comment u req := by
  obtain ⟨uid, urole⟩ := u
  rcases swap_cases urole with ⟨h, _⟩ | ⟨h, _⟩ | ⟨_, _, hs⟩
  · subst h
    rfl
  · subst h
    rfl
  · unfold swapUser
    dsimp only []
    rw [hs]

theorem swap_can_assign_master (u : User) :
    user_can_assign_master (swapUser u) = user_can_assign_master u := by
  obtain ⟨uid, urole⟩ := u
  rcases swap_cases urole with ⟨h, _⟩ | ⟨h, _⟩ | ⟨_, _, hs⟩
  · subst h
    rfl
  · subst h
    rfl
  · unfold swapUser
    dsimp only []
    rw [hs]

theorem swap_can_change_status (u : User)
    (old_status new_status : RequestStatus) :
    user_can_change_status (swapUser u) old_status new_status =
      user_can_change_status u old_status new_status := by
  obtain ⟨uid, urole⟩ := u
  rcases swap_cases urole with ⟨h, _⟩ | ⟨h, _⟩ | ⟨_, _, hs⟩
  · subst h
    rfl
  · subst h
    rfl
  · unfold swapUser
    dsimp only []
    rw [hs]

theorem swap_can_create_help_request (u : User) :
    user_can_create_help_request (swapUser u) =
      user_can_create_help_request u := by
  obtain ⟨uid, urole⟩ := u
  rcases swap_cases urole with ⟨h, _⟩ | ⟨h, _⟩ | ⟨_, _, hs⟩
  · subst h
    rfl
  · subst h
    rfl
  · unfold swapUser
    dsimp only []
    rw [hs]

theorem swap_can_handle_help_request (u : User) :
    user_can_handle_help_request (swapUser u) =
      user_can_handle_help_request u := by
  obtain ⟨uid, urole⟩ := u
  rcases swap_cases urole with ⟨h, _⟩ | ⟨h, _⟩ | ⟨_, _, hs⟩
  · subst h
    rfl
  · subst h
    rfl
  · unfold swapUser
    dsimp only []
    rw [hs]

theorem swap_resolve_create (s : Store) (u : User) (data : RequestInput) :
    _resolve_new_status_for_create s (swapUser u) data =
      _resolve_new_status_for_create s u data := by
  obtain ⟨uid, urole⟩ := u
  rcases swap_cases urole with ⟨h, _⟩ | ⟨h, _⟩ | ⟨_, _, hs⟩
  · subst h
    rfl
  · subst h
    rfl
  · unfold swapUser
    dsimp only []
    rw [hs]

theorem swap_resolve_update (s : Store) (u : User) (req : RepairRequest)
    (data : RequestInput) :
    _resolve_new_status_for_update s (swapUser u) req data =
      _resolve_new_status_for_update s u req data := by
  obtain ⟨uid, urole⟩ := u
  rcases swap_cases urole with ⟨h, _⟩ | ⟨h, _⟩ | ⟨_, _, hs⟩
  · subst h
    rfl
  · subst h
    rfl
  · unfold swapUser
    dsimp only []
    rw [hs]

theorem swap_apply_due_date (u : User) (req : RepairRequest)
    (data : RequestInput) :
    _apply_due_date (swapUser u) req data = _apply_due_date u req data := by
  obtain ⟨uid, urole⟩ := u
  rcases swap_cases urole with ⟨h, _⟩ | ⟨h, _⟩ | ⟨_, _, hs⟩
  · subst h
    rfl
  · subst h
    rfl
  · unfold swapUser
    dsimp only []
    rw [hs]

theorem swap_apply_repair_parts (u : User) (req : RepairRequest)
    (data : RequestInput) :
    _apply_repair_parts (swapUser u) req data =
      _apply_repair_parts u req data := by
  obtain ⟨uid, urole⟩ := u
  rcases swap_cases urole with ⟨h, _⟩ | ⟨h, _⟩ | ⟨_, _, hs⟩
  · subst h
    rfl
  · subst h
    rfl
  · unfold swapUser
    dsimp only []
    rw [hs]

theorem swap_apply_master (u : User) (req : RepairRequest)
    (data : RequestInput) :
    _apply_master (swapUser u) req data = _apply_master u req data := by
  obtain ⟨uid, urole⟩ := u
  rcases swap_cases urole with ⟨h, _⟩ | ⟨h, _⟩ | ⟨_, _, hs⟩
  · subst h
    rfl
  · subst h
    rfl
  · unfold swapUser
    dsimp only []
    rw [hs]

theorem swap_apply_client (u : User) (req : RepairRequest)
    (data : RequestInput) :
    _apply_client (swapUser u) req data = _apply_client u req data := by
  obtain ⟨uid, urole⟩ := u
  rcases swap_cases urole with ⟨h, _⟩ | ⟨h, _⟩ | ⟨_, _, hs⟩
  · subst h
    rfl
  · subst h
    rfl
  · unfold swapUser
    dsimp only []
    rw [hs]

theorem swap_save (s : Store) (u : User) (data : RequestInput)
    (today : Int) :
    save_request s (swapUser u) data today =
      save_request s u data today := by
  unfold save_request finishSave
  simp only [swap_can_edit_request, swap_can_create_request,
    swap_resolve_create, swap_resolve_update, swap_apply_due_date,
    swap_apply_repair_parts, swap_apply_master, swap_apply_client]

theorem swap_delete (s : Store) (u : User) (rid : Nat) :
    delete_request s (swapUser u) rid = delete_request s u rid := by
  unfold delete_request
  simp only [swap_can_delete_request]

theorem swap_add_comment (s : Store) (u : User) (rid : Nat)
    (msg : String) :
    add_comment s (swapUser u) rid msg = add_comment s u rid msg := by
  unfold add_comment
  simp only [swap_can_add_comment, swapUser_id]

theorem swap_create_help (s : Store) (u : User)
    (cin : HelpRequestCreateInput) :
    create_help_request s (swapUser u) cin =
      create_help_request s u cin := by
  unfold create_help_request
  simp only [swap_can_create_help_request, swapUser_id]

theorem swap_close_actor (s : Store) (u : User)
    (cdata : HelpRequestCloseInput) (now : Int) :
    close_help_request s (swapUser u) cdata now =
      close_help_request s u cdata now := by
  unfold close_help_request finishClose
  simp only [swap_can_handle_help_request, swapUser_id]

theorem find?_map_comm {α : Type} (f : α → α) (p : α → Bool)
    (hp : ∀ x, p (f x) = p x) :
    ∀ l : List α, (l.map f).find? p = (l.find? p).map f := by
  intro l
  induction l with
  | nil => rfl
  | cons a t ih =>
    by_cases ha : p a = true
    · rw [List.map_cons, List.find?_cons_of_pos _ (by rw [hp]; exact ha),
        List.find?_cons_of_pos _ ha]
      rfl
    · rw [List.map_cons,
        List.find?_cons_of_neg _ (by rw [hp]; simpa using ha),
        List.find?_cons_of_neg _ ha, ih]

theorem dbGetUser_swapStore (s : Store) (i : Nat) :
    dbGetUser (swapStore s) i = (dbGetUser s i).map swapUser := by
  unfold dbGetUser swapStore
  dsimp only []
  exact find?_map_comm swapUser (fun u => u.id == i) (fun x => rfl)
    s.users

theorem finishClose_swapStore (s : Store) (u : User)
    (data : HelpRequestCloseInput) (now : Int) (req : RepairRequest)
    (h0 : HelpRequest) :
    finishClose (swapStore s) u data now req h0 =
      (swapStore (finishClose s u data now req h0).1,
        (finishClose s u data now req h0).2) := by
  unfold finishClose dbAddRequest dbUpdateHelp swapStore
  dsimp only []
  repeat' split <;> rfl

theorem swap_store_close (s : Store) (u : User)
    (cdata : HelpRequestCloseInput) (now : Int) :
    close_help_request (swapStore s) u cdata now =
      (close_help_request s u cdata now).map
        (fun p => (swapStore p.1, p.2)) := by
  unfold close_help_request
  by_cases hcan : user_can_handle_help_request u = true
  · rw [show dbGetHelp (swapStore s) cdata.help_id =
      dbGetHelp s cdata.help_id from rfl]
    rcases hh : dbGetHelp s cdata.help_id with _ | h0
    · simp [hcan, hh]
      rfl
    · simp only [hcan, hh, Bool.not_true, Bool.false_eq_true, if_false]
      by_cases hst : (h0.status == "open") = true
      · rw [show dbGetRequest (swapStore s) h0.request_id =
          dbGetRequest s h0.request_id from rfl]
        rcases hr : dbGetRequest s h0.request_id with _ | req
        · simp [hst, hr]
          rfl
        · simp only [hst, hr, Bool.not_true, Bool.false_eq_true, if_false]
          by_cases hdue : (match cdata.new_due_date with
            | some d => decide (d < req.start_date)
            | none => false) = true
          · simp [hdue]
            rfl
          · simp only [hdue, if_false, Bool.false_eq_true]
            rcases hm : cdata.assigned_master_id with _ | mid
            · simp only []
              rw [finishClose_swapStore]
              rfl
            · simp only []
              rw [dbGetUser_swapStore]
              rcases hu : dbGetUser s mid with _ | mu
              · rfl
              · rw [show Option.map swapUser (some mu) =
                  some (swapUser mu) from rfl]
                dsimp only []
                have hrole : is_master_role (swapUser mu).role =
                    is_master_role mu.role := swap_is_master_role mu.role
                rw [hrole]
                by_cases hmr : is_master_role mu.role = true
                · simp only [hmr, Bool.not_true, Bool.false_eq_true,
                    if_false]
                  rw [show (swapUser mu).id = mu.id from rfl,
                    finishClose_swapStore]
                  rfl
                · simp [hmr]
                  rfl
      · simp [hst]
        rfl
  · simp [hcan]
    rfl

/-- C8: the Master and Specialist roles are interchangeable.  Swapping an
actor's role between the two (or the role of any user in the store, for
the close operation which looks target users up) leaves every
authorization predicate, the status-transition decision, every field gate,
and every use-case operation with the identical decision, mutation and
failure. -/
theorem c8_master_specialist_interchangeable :
    (∀ r, is_master_role (swap_master_specialist r) = is_master_role r) ∧
    (∀ u, user_can_create_request (swapUser u) =
      user_can_create_request u) ∧
    (∀ u req, user_can_view_request (swapUser u) req =
      user_can_view_request u req) ∧
    (∀ u req, user_can_edit_request (swapUser u) req =
      user_can_edit_request u req) ∧
    (∀ u, user_can_delete_request (swapUser u) =
      user_can_delete_request u) ∧
    (∀ u req, user_can_add_comment (swapUser u) req =
      user_can_add_comment u req) ∧
    (∀ u, user_can_assign_master (swapUser u) =
      user_can_assign_master u) ∧
    (∀ u old_s new_s, user_can_change_status (swapUser u) old_s new_s =
      user_can_change_status u old_s new_s) ∧
    (∀ u, user_can_create_help_request (swapUser u) =
      user_can_create_help_request u) ∧
    (∀ u, user_can_handle_help_request (swapUser u) =
      user_can_handle_help_request u) ∧
    (∀ u req data, _apply_due_date (swapUser u) req data =
      _apply_due_date u req data) ∧
    (∀ u req data, _apply_repair_parts (swapUser u) req data =
      _apply_repair_parts u req data) ∧
    (∀ u req data, _apply_master (swapUser u) req data =
      _apply_master u req data) ∧
    (∀ u req data, _apply_client (swapUser u) req data =
      _apply_client u req data) ∧
    (∀ s u data today, save_request s (swapUser u) data today =
      save_request s u data today) ∧
    (∀ s u rid, delete_request s (swapUser u) rid =
      delete_request s u rid) ∧
    (∀ s u rid msg, add_comment s (swapUser u) rid msg =
      add_comment s u rid msg) ∧
    (∀ s u cin, create_help_request s (swapUser u) cin =
      create_help_request s u cin) ∧
    (∀ s u cdata now, close_help_request s (swapUser u) cdata now =
      close_help_request s u cdata now) ∧
    (∀ s u cdata now, close_help_request (swapStore s) u cdata now =
      (close_help_request s u cdata now).map
        (fun p => (swapStore p.1, p.2))) :=
  ⟨swap_is_master_role, swap_can_create_request, swap_can_view_request,
    swap_can_edit_request, swap_can_delete_request, swap_can_add_comment,
    swap_can_assign_master, swap_can_change_status,
    swap_can_create_help_request, swap_can_handle_help_request,
    swap_apply_due_date, swap_apply_repair_parts, swap_apply_master,
    swap_apply_client, swap_save, swap_delete, swap_add_comment,
    swap_create_help, swap_close_actor, swap_store_close⟩

end ServiceCenter
